import Mathlib

/-!
Verification development for the `cofacts/beta-ai` repository.

This file gives a shallow embedding, in Lean 4, of the tracing /
delegation harness (`langfuse_tracing.py`, `agent_tracing_wrapper.py`),
of the external-API tool wrappers (`hackmd_agent/api_tools.py`) and of
the redirect resolver (`cofacts_ai/agent.py`), and proves properties of
these embeddings.

Modelling conventions:
* Python strings are Lean `String`s; Python string slicing `s[:n]` acts
  on code points, so it is embedded as `List.take n` on `String.data`,
  and `len(s)` as `s.data.length`.
* Python exceptions are values of `PyException` (type name plus
  `str(e)`), and fallible operations return `Except PyException α`.
* `uuid.uuid4()` is an external entropy source; it is embedded as an
  explicit supply: a fresh value is passed in (or drawn from an
  injective generator `gen : Nat → String` with a global counter, which
  models global uniqueness of uuid4 values across concurrent chains).
* Network I/O (`httpx`, and the redirect lookup) is embedded as an
  explicit oracle function passed to the operation; the operations also
  return the list of requests they issued, so that "performs no network
  call" is expressible.
* Scanning functions over text (the embeddings of `re.findall`,
  `re.sub` and `str.replace`) recurse structurally on an explicit fuel
  argument instantiated with the text length, so that all definitions
  compute by kernel reduction.
-/

set_option maxRecDepth 1000000

namespace BetaAI

/-! ## Conversation context store (`langfuse_tracing.py`)

`conversation_id_var : ContextVar[Optional[str]]` with default `None` is
the per-call-chain store; a chain's view of it is a value of
`Option String`.  Python's `if not conv_id:` treats both `None` and the
empty string as absent. -/

/-- Python truthiness of `Optional[str]`: `None` and `""` are falsy. -/
def strTruthy : Option String → Bool
  | none => false
  | some s => !(s = "")

/-- Embedding of `get_or_create_conversation_id`.  The uuid4 value that
`generate_conversation_id` would produce on this call is passed in as
`fresh`; the result is the id returned to the caller together with the
updated value of `conversation_id_var` in the current chain. -/
def get_or_create_conversation_id (fresh : String) (ctx : Option String) :
    String × Option String :=
  match ctx with
  | some v => if v = "" then (fresh, some fresh) else (v, some v)
  | none => (fresh, some fresh)

/-- Embedding of `set_conversation_id`: overwrite the current chain's
`conversation_id_var`. -/
def set_conversation_id (conversation_id : String) (_ctx : Option String) :
    Option String :=
  some conversation_id

/-! ### Two concurrent call chains

`ContextVar` gives every asyncio task its own view of
`conversation_id_var`; uuid4 draws are globally unique.  This is
embedded as a world with one isolated context per chain and a single
shared uuid counter consumed by whichever chain generates. -/

/-- An operation a call chain may perform on the conversation store. -/
inductive CtxOp where
  | getOrCreate : CtxOp
  | setId (v : String) : CtxOp
deriving DecidableEq

/-- Which of the two concurrent chains performs an operation. -/
inductive ChainId where
  | chain1 : ChainId
  | chain2 : ChainId
deriving DecidableEq

/-- Per-chain contextvar views plus the shared uuid supply counter. -/
structure TwoChainWorld where
  ctx1 : Option String
  ctx2 : Option String
  counter : Nat
deriving DecidableEq

/-- A run's world together with its audit trail: which uuid-counter
values each chain consumed, and which ids each chain observed as return
values of `get_or_create_conversation_id`. -/
structure RunTrace where
  world : TwoChainWorld
  consumed1 : List Nat
  consumed2 : List Nat
  observed1 : List String
  observed2 : List String
deriving DecidableEq

/-- One `get_or_create_conversation_id` call inside one chain: the
uuid4 draw `gen counter` happens exactly when the chain's current value
is falsy (that is exactly when the source regenerates).  Returns the
(result, new context) pair of `get_or_create_conversation_id`, the new
counter, and the list of consumed counter values. -/
def getOrCreateIn (gen : Nat → String) (counter : Nat) (ctx : Option String) :
    (String × Option String) × Nat × List Nat :=
  if strTruthy ctx then
    (get_or_create_conversation_id (gen counter) ctx, counter, [])
  else
    (get_or_create_conversation_id (gen counter) ctx, counter + 1, [counter])

/-- One step of one chain. `setId` runs `set_conversation_id` on that
chain's own view only; `getOrCreate` runs
`get_or_create_conversation_id` on that chain's own view, drawing from
the shared uuid supply when it generates. -/
def stepChain (gen : Nat → String) (t : RunTrace) : ChainId × CtxOp → RunTrace
  | (ChainId.chain1, CtxOp.getOrCreate) =>
    let r := getOrCreateIn gen t.world.counter t.world.ctx1
    { world := { t.world with ctx1 := r.1.2, counter := r.2.1 },
      consumed1 := t.consumed1 ++ r.2.2, consumed2 := t.consumed2,
      observed1 := t.observed1 ++ [r.1.1], observed2 := t.observed2 }
  | (ChainId.chain1, CtxOp.setId v) =>
    { t with world := { t.world with ctx1 := set_conversation_id v t.world.ctx1 } }
  | (ChainId.chain2, CtxOp.getOrCreate) =>
    let r := getOrCreateIn gen t.world.counter t.world.ctx2
    { world := { t.world with ctx2 := r.1.2, counter := r.2.1 },
      consumed1 := t.consumed1, consumed2 := t.consumed2 ++ r.2.2,
      observed1 := t.observed1, observed2 := t.observed2 ++ [r.1.1] }
  | (ChainId.chain2, CtxOp.setId v) =>
    { t with world := { t.world with ctx2 := set_conversation_id v t.world.ctx2 } }

/-- Both chains start with `conversation_id_var` at its default `None`
and nothing consumed or observed. -/
def initTrace : RunTrace :=
  { world := { ctx1 := none, ctx2 := none, counter := 0 },
    consumed1 := [], consumed2 := [], observed1 := [], observed2 := [] }

/-- Run an interleaved schedule of operations of the two chains. -/
def runChains (gen : Nat → String) (sched : List (ChainId × CtxOp)) : RunTrace :=
  sched.foldl (stepChain gen) initTrace

/-- Invariant of a run, relative to a predicate `allowed` describing
the ids chain 1 may legitimately hold (its own generated ids, plus
whatever was explicitly propagated into it): consumed counters stay
below the supply counter, the two chains consume disjoint counters, and
everything chain 1 stores or observes is its own or allowed. -/
def ChainInv (gen : Nat → String) (allowed : String → Prop) (t : RunTrace) : Prop :=
  (∀ n ∈ t.consumed1, n < t.world.counter) ∧
  (∀ n ∈ t.consumed2, n < t.world.counter) ∧
  (∀ n, n ∈ t.consumed1 → n ∈ t.consumed2 → False) ∧
  (∀ v, t.world.ctx1 = some v → (∃ n ∈ t.consumed1, v = gen n) ∨ allowed v) ∧
  (∀ id ∈ t.observed1, (∃ n ∈ t.consumed1, id = gen n) ∨ allowed id)

/-! ## Spans (`langfuse_tracing.py`)

OpenTelemetry spans are embedded as records of their observable
bookkeeping: attributes are appended in call order (`set_attribute`),
every `set_status` call is recorded in order (so "status set exactly
once" is expressible), and `Span.__exit__` only ends the span. -/

/-- An OpenTelemetry attribute value as used by this code base. -/
inductive AttrValue where
  | str (s : String) : AttrValue
  | int (n : Int) : AttrValue
  | bool (b : Bool) : AttrValue
deriving DecidableEq

/-- OpenTelemetry `StatusCode`. -/
inductive StatusCode where
  | unset : StatusCode
  | ok : StatusCode
  | error : StatusCode
deriving DecidableEq

/-- OpenTelemetry `Status(code, description)`; a missing description is
the empty string. -/
structure SpanStatus where
  code : StatusCode
  description : String
deriving DecidableEq

/-- A span: its name, the `set_attribute` calls in order, the
`set_status` calls in order, and whether `end()` was called. -/
structure Span where
  name : String
  attributes : List (String × AttrValue)
  statusHistory : List SpanStatus
  ended : Bool
deriving DecidableEq

/-- `span.set_attribute(key, value)`. -/
def Span.setAttr (s : Span) (k : String) (v : AttrValue) : Span :=
  { s with attributes := s.attributes ++ [(k, v)] }

/-- `span.set_status(status)`. -/
def Span.setStatus (s : Span) (st : SpanStatus) : Span :=
  { s with statusHistory := s.statusHistory ++ [st] }

/-- `span.end()` / `Span.__exit__` (which only ends the span). -/
def Span.endSpan (s : Span) : Span :=
  { s with ended := true }

/-- Value of an attribute key after all `set_attribute` calls; a later
call for the same key overwrites an earlier one. -/
def lastAttr : List (String × AttrValue) → String → Option AttrValue
  | [], _ => none
  | kv :: t, key =>
    match lastAttr t key with
    | some w => some w
    | none => if kv.1 = key then some kv.2 else none

/-- Final value of an attribute on a span. -/
def Span.getAttr (s : Span) (key : String) : Option AttrValue :=
  lastAttr s.attributes key

/-- Code of the last `set_status` call, if any. -/
def Span.finalStatusCode (s : Span) : Option StatusCode :=
  (s.statusHistory.getLast?).map SpanStatus.code

/-- A Python value as it flows through the tracing layer: a `str`, a
string-valued `dict`, or some other object (whose truthiness is
carried, since `if input_data:` tests it). -/
inductive PyVal where
  | str (s : String) : PyVal
  | dict (d : List (String × String)) : PyVal
  | other (truthy : Bool) : PyVal
deriving DecidableEq

/-- A Python exception as observed by this code: the exception type's
`__name__` and `str(e)`. -/
structure PyException where
  type_name : String
  message : String
deriving DecidableEq

/-- `json.dumps(d, default=str)` for a flat `str -> str` dict (the JSON
serialisation of richer payloads is outside the embedded fragment). -/
def jsonDumpsStrDict (d : List (String × String)) : String :=
  "\x7b" ++
    String.intercalate ", "
      (d.map fun kv => "\x22" ++ kv.1 ++ "\x22: \x22" ++ kv.2 ++ "\x22") ++
  "\x7d"

/-- Python truthiness of the optional `input_data` argument: `None`,
`""` and the empty dict are falsy. -/
def pyValTruthy : Option PyVal → Bool
  | none => false
  | some (PyVal.str s) => !(s = "")
  | some (PyVal.dict d) => !d.isEmpty
  | some (PyVal.other b) => b

/-- The `for key, value in additional_attributes.items()` loop of
`create_conversation_span`: attach every non-`None` value, stringified. -/
def addAttrs (additional : List (String × Option String)) (s : Span) : Span :=
  additional.foldl
    (fun sp kv =>
      match kv.2 with
      | some v => sp.setAttr kv.1 (AttrValue.str v)
      | none => sp) s

/-- Embedding of `create_conversation_span`.  `fresh`/`ctx` feed the
`get_or_create_conversation_id` call; `additional` is the
`**additional_attributes` dict in insertion order (a `None` value is
skipped, any other value arrives already stringified). Returns the
created span and the updated conversation context. -/
def create_conversation_span (fresh : String) (ctx : Option String)
    (operation_name : String) (input_data : Option PyVal)
    (additional : List (String × Option String)) : Span × Option String :=
  let conv := get_or_create_conversation_id fresh ctx
  let span : Span :=
    { name := operation_name, attributes := [], statusHistory := [], ended := false }
  let span := span.setAttr "conversation.id" (AttrValue.str conv.1)
  let span := span.setAttr "conversation.session_id" (AttrValue.str conv.1)
  let span := span.setAttr "service.name" (AttrValue.str "adk_langfuse_service")
  let span :=
    if pyValTruthy input_data then
      match input_data with
      | some (PyVal.str s) =>
        (span.setAttr "input.content" (AttrValue.str ⟨s.data.take 1000⟩)).setAttr
          "input.length" (AttrValue.int s.data.length)
      | some (PyVal.dict d) =>
        span.setAttr "input.data" (AttrValue.str ⟨(jsonDumpsStrDict d).data.take 1000⟩)
      | _ => span
    else span
  let span := addAttrs additional span
  (span, conv.2)

/-- Keyword names bound explicitly in the call
`create_conversation_span(name, input_data=..., agent_name=...,
agent_type=..., operation_type=..., **attributes)` inside
`trace_agent_interaction`. -/
def interactionFixedKeys : List String :=
  ["input_data", "agent_name", "agent_type", "operation_type"]

/-- First key of `extra` that collides with an explicitly bound keyword
of the call — Python raises `TypeError: ... got multiple values for
keyword argument k` for such a key. -/
def kwargsConflict (fixed : List String) (extra : List (String × Option String)) :
    Option String :=
  (extra.find? fun kv => fixed.contains kv.1).map Prod.fst

/-- Embedding of `trace_agent_interaction`.  If `attributes` re-binds a
keyword that the source call already passes explicitly, the call raises
`TypeError` before any span is created. -/
def trace_agent_interaction (fresh : String) (ctx : Option String)
    (agent_name operation : String) (input_data : Option PyVal)
    (attributes : List (String × Option String)) :
    Except PyException (Span × Option String) :=
  match kwargsConflict interactionFixedKeys attributes with
  | some k =>
    Except.error
      { type_name := "TypeError",
        message := "create_conversation_span() got multiple values for keyword argument \x27"
          ++ k ++ "\x27" }
  | none =>
    Except.ok
      (create_conversation_span fresh ctx
        ("agent." ++ agent_name ++ "." ++ operation) input_data
        ([("agent_name", some agent_name),
          ("agent_type", some "llm_agent"),
          ("operation_type", some "agent_interaction")] ++ attributes))

/-- Embedding of `record_agent_output`: record the (truncated) output,
the `operation.success` flag, and set the span status OK/ERROR. -/
def record_agent_output (span : Span) (output_data : PyVal) (success : Bool) : Span :=
  let span :=
    match output_data with
    | PyVal.str s =>
      (span.setAttr "output.content" (AttrValue.str ⟨s.data.take 1000⟩)).setAttr
        "output.length" (AttrValue.int s.data.length)
    | PyVal.dict d =>
      span.setAttr "output.data" (AttrValue.str ⟨(jsonDumpsStrDict d).data.take 1000⟩)
    | PyVal.other _ => span
  let span := span.setAttr "operation.success" (AttrValue.bool success)
  if success then span.setStatus { code := StatusCode.ok, description := "" }
  else span.setStatus { code := StatusCode.error, description := "" }

/-- `ConversationTracer.__exit__`: on an in-flight exception record its
type and message and set ERROR status; in all cases end the span. -/
def conversationTracer_exit (span : Span) (exc : Option PyException) : Span :=
  let span :=
    match exc with
    | some e =>
      (((span.setAttr "error.type" (AttrValue.str e.type_name)).setAttr
          "error.message" (AttrValue.str e.message)).setStatus
        { code := StatusCode.error, description := e.message })
    | none => span
  span.endSpan

/-! ## Agent call wrapper (`agent_tracing_wrapper.py`) -/

/-- The wrapper's user-input heuristic: the first positional argument if
it is a `str`, else the `message` keyword, else the `input` keyword. -/
def extract_user_input (args : List PyVal) (kwargs : List (String × PyVal)) :
    Option PyVal :=
  match args with
  | PyVal.str s :: _ => some (PyVal.str s)
  | _ =>
    match kwargs.lookup "message" with
    | some v => some v
    | none => kwargs.lookup "input"

/-- Embedding of one invocation through the `trace_agent_call`
decorator (the sync and async wrappers have identical logic). The
wrapped operation is `f`; the call returns `f`'s outcome unchanged
together with the finished span and the updated conversation context.
`ConversationTracer.__enter__` passes `input_data` as the only keyword,
which binds `trace_agent_interaction`'s named parameter, so no keyword
collision can occur on this path. -/
def trace_agent_call_run (agent_name operation : String)
    (f : List PyVal → List (String × PyVal) → Except PyException PyVal)
    (args : List PyVal) (kwargs : List (String × PyVal))
    (fresh : String) (ctx : Option String) :
    Except PyException PyVal × Span × Option String :=
  let user_input := extract_user_input args kwargs
  match trace_agent_interaction fresh ctx agent_name operation user_input [] with
  | Except.error e => (Except.error e, { name := "", attributes := [], statusHistory := [], ended := false }, ctx)
  | Except.ok (span0, ctx') =>
    match f args kwargs with
    | Except.ok v =>
      let span1 := record_agent_output span0 v true
      (Except.ok v, conversationTracer_exit span1 none, ctx')
    | Except.error e =>
      let span1 := record_agent_output span0 (PyVal.str e.message) false
      (Except.error e, conversationTracer_exit span1 (some e), ctx')

/-! ## Delegation orchestrator (`agent_tracing_wrapper.py`) -/

/-- A delegatable target: optional `_traced_agent_name`, optional
`name` attribute, and its callable behaviour. -/
structure Agent where
  traced_agent_name : Option String
  attrName : Option String
  call : PyVal → Except PyException PyVal

/-- `getattr(agent, '_traced_agent_name', agent.name if hasattr(agent,
'name') else 'unknown_agent')`. -/
def agentLabel (a : Agent) : String :=
  a.traced_agent_name.getD (a.attrName.getD "unknown_agent")

/-- Embedding of `trace_agent_delegation`: it forwards
`operation_type="agent_delegation"` through `**attributes` of
`trace_agent_interaction`, whose own call to
`create_conversation_span` already binds `operation_type` explicitly. -/
def trace_agent_delegation (fresh : String) (ctx : Option String)
    (delegating_agent target_agent task_description : String)
    (input_data : Option PyVal) : Except PyException (Span × Option String) :=
  trace_agent_interaction fresh ctx (delegating_agent ++ "_to_" ++ target_agent)
    "delegate" input_data
    [("delegating_agent", some delegating_agent),
     ("target_agent", some target_agent),
     ("task_description", some task_description),
     ("operation_type", some "agent_delegation")]

/-- Embedding of `trace_multi_agent_workflow`: it likewise forwards
`operation_type="multi_agent_workflow"` through `**attributes`. -/
def trace_multi_agent_workflow (fresh : String) (ctx : Option String)
    (workflow_name : String) (agents_involved : List String)
    (user_input : Option PyVal) : Except PyException (Span × Option String) :=
  trace_agent_interaction fresh ctx "multi_agent_workflow" workflow_name user_input
    [("workflow_name", some workflow_name),
     ("agents_involved", some (String.intercalate "," agents_involved)),
     ("operation_type", some "multi_agent_workflow")]

/-- `TracedAgentOrchestrator.__enter__`: open the parent span via
`trace_multi_agent_workflow` with an empty participant list. -/
def orchestrator_enter (fresh : String) (ctx : Option String)
    (workflow_name : String) (user_input : Option PyVal) :
    Except PyException (Span × Option String) :=
  trace_multi_agent_workflow fresh ctx workflow_name [] user_input

/-- `TracedAgentOrchestrator.__exit__` on an already-open parent span:
record error attributes when an exception is in flight, then the
delegation summary, then close the span. -/
def orchestrator_exit (span : Span) (delegations : List String)
    (exc : Option PyException) : Span :=
  let span :=
    match exc with
    | some e =>
      (span.setAttr "workflow.error.type" (AttrValue.str e.type_name)).setAttr
        "workflow.error.message" (AttrValue.str e.message)
    | none => span
  let span := span.setAttr "workflow.delegations_count"
    (AttrValue.int delegations.length)
  let span :=
    if delegations.isEmpty then span
    else span.setAttr "workflow.agents_used"
      (AttrValue.str (String.intercalate "," delegations))
  span.endSpan

/-- `TracedAgentOrchestrator.delegate`: resolve the target's label,
append it to `self.delegations` if not already present (this mutation
happens before the span is opened), then open the delegation span and
call the target. Returns the updated delegation list and, when the span
opening does not raise, the call's outcome with the closed child span. -/
def orchestrator_delegate (fresh : String) (ctx : Option String)
    (workflow_name : String) (delegations : List String) (agent : Agent)
    (task_name : String) (input_data : PyVal) :
    List String × Except PyException (Except PyException PyVal × Span × Option String) :=
  let agent_name := agentLabel agent
  let delegations' :=
    if agent_name ∈ delegations then delegations else delegations ++ [agent_name]
  match trace_agent_delegation fresh ctx workflow_name agent_name task_name
      (some input_data) with
  | Except.error e => (delegations', Except.error e)
  | Except.ok (dspan, ctx') =>
    match agent.call input_data with
    | Except.ok v =>
      let d1 := dspan.setAttr "delegation.success" (AttrValue.bool true)
      let d2 := record_agent_output d1 v true
      (delegations', Except.ok (Except.ok v, d2.endSpan, ctx'))
    | Except.error e =>
      let d1 := dspan.setAttr "delegation.success" (AttrValue.bool false)
      let d2 := d1.setAttr "delegation.error" (AttrValue.str e.message)
      let d3 := record_agent_output d2 (PyVal.str e.message) false
      (delegations', Except.ok (Except.error e, d3.endSpan, ctx'))

/-! ## External API tools (`hackmd_agent/api_tools.py`)

The HTTP layer (`httpx`) is the external boundary: it is embedded as an
oracle `net : ApiCall → NetResult`.  Each tool returns the Python result
dict (as an association list in insertion order) together with the list
of HTTP requests it issued, so that "performs no network call" is the
statement that the list is empty.  JSON decoding of error bodies is
likewise external: the oracle supplies both the raw body and the error
detail string that the `except httpx.HTTPStatusError` block would
compute from it. -/

/-- A JSON-serialisable payload value used by these tools. -/
inductive PVal where
  | s (v : String) : PVal
  | ls (vs : List String) : PVal
deriving DecidableEq

/-- One outgoing HTTP request. -/
structure ApiCall where
  api : String
  method : String
  url : String
  params : List (String × Int) := []
  payload : Option (List (String × PVal)) := none
deriving DecidableEq

/-- Outcome of an HTTP request as the tool code observes it: a response
(with status code, body, and the error-detail string extracted from the
body), a `httpx.RequestError`, or any other exception. -/
inductive NetResult where
  | resp (status_code : Nat) (body : String) (errorDetail : String) : NetResult
  | requestError (msg : String) : NetResult
  | otherError (msg : String) : NetResult

/-- A value of a Python result dict returned by these tools. -/
inductive DVal where
  | s (v : String) : DVal
  | n (v : Int) : DVal
  | jsonBody (body : String) : DVal
  | nullv : DVal
deriving DecidableEq

/-- A Python result dict, as an association list in insertion order. -/
abbrev PyDict := List (String × DVal)

/-- Dict lookup (`d.get(k)`). -/
def dGet (d : PyDict) (k : String) : Option DVal :=
  match d with
  | [] => none
  | kv :: t => if kv.1 = k then some kv.2 else dGet t k

/-- Python truthiness of `result.get("data")`: absent and `None` are
falsy; a decoded JSON body is treated as truthy (empty JSON containers
are outside the embedded fragment). -/
def dvalTruthy : Option DVal → Bool
  | none => false
  | some DVal.nullv => false
  | some (DVal.s v) => !(v = "")
  | some (DVal.n v) => !(v = 0)
  | some (DVal.jsonBody _) => true

/-- `method.upper()` (character-wise ASCII upper-casing). -/
def pyUpper (s : String) : String :=
  ⟨s.data.map Char.toUpper⟩

/-- `s.rstrip('/')`. -/
def rstripSlash (s : String) : String :=
  ⟨(s.data.reverse.dropWhile (fun c => c = '/')).reverse⟩

/-- `s.lstrip('/')`. -/
def lstripSlash (s : String) : String :=
  ⟨s.data.dropWhile (fun c => c = '/')⟩

/-- `f"{base.rstrip('/')}/{endpoint.lstrip('/')}"`. -/
def joinUrl (base endpoint : String) : String :=
  rstripSlash base ++ "/" ++ lstripSlash endpoint

/-- Default `HACKMD_API_URL` when the environment variable is unset. -/
def HACKMD_API_URL : String := "https://api.hackmd.io/v1"

/-- `GITHUB_API_URL`. -/
def GITHUB_API_URL : String := "https://api.github.com"

/-- `DISCORD_API_URL`. -/
def DISCORD_API_URL : String := "https://discord.com/api/v10"

/-- Shared response handling of the three `_make_*_request` helpers:
`raise_for_status()` raises for any non-2xx status, and the `except`
blocks build the error dicts with the given message prefixes. -/
def handleNet (failMsg errMsg unexpectedMsg : String) (is204Null : Bool) :
    NetResult → PyDict
  | NetResult.resp code body detail =>
    if 200 ≤ code ∧ code < 300 then
      if is204Null ∧ code = 204 then
        [("status", DVal.s "success"), ("data", DVal.nullv)]
      else
        [("status", DVal.s "success"), ("data", DVal.jsonBody body)]
    else
      [("status", DVal.s "error"),
       ("error_message", DVal.s (failMsg ++ toString code ++ " - " ++ detail)),
       ("status_code", DVal.n code)]
  | NetResult.requestError m =>
    [("status", DVal.s "error"), ("error_message", DVal.s (errMsg ++ m))]
  | NetResult.otherError m =>
    [("status", DVal.s "error"), ("error_message", DVal.s (unexpectedMsg ++ m))]

/-- Embedding of `_make_hackmd_request`. -/
def make_hackmd_request (token : Option String) (net : ApiCall → NetResult)
    (method endpoint : String) (payload : Option (List (String × PVal))) :
    PyDict × List ApiCall :=
  match token with
  | none =>
    ([("status", DVal.s "error"),
      ("error_message", DVal.s "HACKMD_API_TOKEN is not set in environment variables.")], [])
  | some _ =>
    let m := pyUpper method
    if m = "GET" ∨ m = "POST" ∨ m = "PATCH" then
      let req : ApiCall :=
        { api := "hackmd", method := m, url := joinUrl HACKMD_API_URL endpoint,
          params := [], payload := if m = "GET" then none else payload }
      (handleNet "API request failed: " "Request error: "
        "An unexpected error occurred: " false (net req), [req])
    else
      ([("status", DVal.s "error"),
        ("error_message", DVal.s ("Unsupported HTTP method: " ++ method))], [])

/-- Embedding of `read_hackmd_note`. -/
def read_hackmd_note (token : Option String) (net : ApiCall → NetResult)
    (note_id : String) : PyDict × List ApiCall :=
  let r := make_hackmd_request token net "GET" ("notes/" ++ note_id) none
  if dGet r.1 "status" = some (DVal.s "success") then
    ([("status", DVal.s "success"),
      ("note_data", (dGet r.1 "data").getD DVal.nullv)], r.2)
  else r

/-- Embedding of `create_hackmd_note` (all parameters optional; the
payload keeps the source's insertion order). -/
def create_hackmd_note (token : Option String) (net : ApiCall → NetResult)
    (title content read_permission write_permission comment_permission
      permalink : Option String) : PyDict × List ApiCall :=
  let payload : List (String × PVal) :=
    (match title with | some v => [("title", PVal.s v)] | none => []) ++
    (match content with | some v => [("content", PVal.s v)] | none => []) ++
    (match read_permission with | some v => [("readPermission", PVal.s v)] | none => []) ++
    (match write_permission with | some v => [("writePermission", PVal.s v)] | none => []) ++
    (match comment_permission with | some v => [("commentPermission", PVal.s v)] | none => []) ++
    (match permalink with | some v => [("permalink", PVal.s v)] | none => [])
  if payload.isEmpty then
    ([("status", DVal.s "error"),
      ("error_message", DVal.s "Cannot create an empty note. Please provide title, content, or other attributes.")], [])
  else
    let r := make_hackmd_request token net "POST" "notes" (some payload)
    if dGet r.1 "status" = some (DVal.s "success") then
      ([("status", DVal.s "success"),
        ("note_data", (dGet r.1 "data").getD DVal.nullv)], r.2)
    else r

/-- Embedding of `update_hackmd_note`. -/
def update_hackmd_note (token : Option String) (net : ApiCall → NetResult)
    (note_id : String)
    (content read_permission write_permission permalink : Option String) :
    PyDict × List ApiCall :=
  let payload : List (String × PVal) :=
    (match content with | some v => [("content", PVal.s v)] | none => []) ++
    (match read_permission with | some v => [("readPermission", PVal.s v)] | none => []) ++
    (match write_permission with | some v => [("writePermission", PVal.s v)] | none => []) ++
    (match permalink with | some v => [("permalink", PVal.s v)] | none => [])
  if payload.isEmpty then
    ([("status", DVal.s "info"),
      ("message", DVal.s "No update parameters provided for the note.")], [])
  else
    let r := make_hackmd_request token net "PATCH" ("notes/" ++ note_id) (some payload)
    if dGet r.1 "status" = some (DVal.s "success") then
      if dvalTruthy (dGet r.1 "data") then
        ([("status", DVal.s "success"),
          ("note_data", (dGet r.1 "data").getD DVal.nullv)], r.2)
      else
        ([("status", DVal.s "success"),
          ("message", DVal.s ("Note " ++ note_id ++ " updated successfully."))], r.2)
    else r

/-- Embedding of `_make_github_request` (only POST is implemented). -/
def make_github_request (token : Option String) (net : ApiCall → NetResult)
    (method endpoint : String) (payload : Option (List (String × PVal))) :
    PyDict × List ApiCall :=
  match token with
  | none =>
    ([("status", DVal.s "error"),
      ("error_message", DVal.s "GITHUB_PERSONAL_ACCESS_TOKEN is not set in environment variables.")], [])
  | some _ =>
    if pyUpper method = "POST" then
      let req : ApiCall :=
        { api := "github", method := "POST", url := joinUrl GITHUB_API_URL endpoint,
          params := [], payload := payload }
      (handleNet "GitHub API request failed: " "GitHub request error: "
        "An unexpected error occurred with GitHub request: " false (net req), [req])
    else
      ([("status", DVal.s "error"),
        ("error_message", DVal.s ("Unsupported HTTP method for GitHub: " ++ method))], [])

/-- Embedding of `create_github_issue`.  `if not owner or not repo or
not title` treats empty strings as missing; `if assignees:` and
`if labels:` treat `None` and the empty list as absent. -/
def create_github_issue (token : Option String) (net : ApiCall → NetResult)
    (owner repo title : String) (body : Option String)
    (assignees labels : Option (List String)) : PyDict × List ApiCall :=
  if owner = "" ∨ repo = "" ∨ title = "" then
    ([("status", DVal.s "error"),
      ("error_message", DVal.s "Owner, repo, and title are required to create a GitHub issue.")], [])
  else
    let payload : List (String × PVal) :=
      [("title", PVal.s title)] ++
      (match body with | some v => [("body", PVal.s v)] | none => []) ++
      (match assignees with
        | some (a :: rest) => [("assignees", PVal.ls (a :: rest))]
        | _ => []) ++
      (match labels with
        | some (a :: rest) => [("labels", PVal.ls (a :: rest))]
        | _ => [])
    let endpoint := "repos/" ++ owner ++ "/" ++ repo ++ "/issues"
    let r := make_github_request token net "POST" endpoint (some payload)
    if dGet r.1 "status" = some (DVal.s "success") then
      ([("status", DVal.s "success"),
        ("issue_data", (dGet r.1 "data").getD DVal.nullv)], r.2)
    else r

/-- Embedding of `_make_discord_request` (GET carries `params`; a 204
response yields `data = None`). -/
def make_discord_request (token : Option String) (net : ApiCall → NetResult)
    (method endpoint : String) (params : List (String × Int))
    (payload : Option (List (String × PVal))) : PyDict × List ApiCall :=
  match token with
  | none =>
    ([("status", DVal.s "error"),
      ("error_message", DVal.s "DISCORD_BOT_TOKEN is not set in environment variables.")], [])
  | some _ =>
    let m := pyUpper method
    if m = "GET" ∨ m = "POST" then
      let req : ApiCall :=
        { api := "discord", method := m, url := joinUrl DISCORD_API_URL endpoint,
          params := params, payload := if m = "GET" then none else payload }
      (handleNet "Discord API request failed: " "Discord request error: "
        "An unexpected error occurred with Discord request: " true (net req), [req])
    else
      ([("status", DVal.s "error"),
        ("error_message", DVal.s ("Unsupported HTTP method for Discord: " ++ method))], [])

/-- Embedding of `get_discord_channel_messages`. -/
def get_discord_channel_messages (token : Option String)
    (net : ApiCall → NetResult) (channel_id : String) (limit : Int) :
    PyDict × List ApiCall :=
  if channel_id = "" then
    ([("status", DVal.s "error"),
      ("error_message", DVal.s "Channel ID is required to fetch Discord messages.")], [])
  else
    let actual_limit : Int := max 1 (min limit 100)
    let r := make_discord_request token net "GET"
      ("channels/" ++ channel_id ++ "/messages") [("limit", actual_limit)] none
    if dGet r.1 "status" = some (DVal.s "success") then
      ([("status", DVal.s "success"),
        ("messages", (dGet r.1 "data").getD DVal.nullv)], r.2)
    else r

/-! ## Redirect resolver (`cofacts_ai/agent.py`)

`resolve_investigator_urls` scans a response part's text with
`re.findall(r'(https://vertexaisearch\.cloud\.google\.com/grounding-api-redirect/[^\s\)\"\x27\>]+)', text)`,
de-duplicates via `set(...)`, resolves each distinct URL once through
`resolve_vertex_redirect` (imported from `.tools` but not present under
`src/` — it is an external network lookup; here it is an oracle
`resolver : String → String` where returning the input unchanged means
"unresolvable", following the spec), and rewrites the text.

The regex operations are embedded as character-list scanners whose
recursion is structural on a fuel argument instantiated with the text
length (one unit of fuel per scan position, which never understates the
number of positions). `\s` is embedded as ASCII whitespace
(`Char.isWhitespace` plus `\x0b`, `\x0c`); non-ASCII whitespace is
outside the embedded fragment. -/

/-- The fixed redirect-URL head matched by the regex. -/
def vertexBase : List Char :=
  "https://vertexaisearch.cloud.google.com/grounding-api-redirect/".data

/-- A character matched by the regex class `[^\s\)\"\x27\>]`. -/
def isUrlChar (c : Char) : Bool :=
  !(c.isWhitespace || c = '\x0b' || c = '\x0c' || c = ')' || c = '\x22' ||
    c = '\x27' || c = '>')

/-- `re.findall` for the redirect pattern: left-to-right scan; at each
position try the literal head followed by a non-empty maximal run of
`isUrlChar` characters; on success continue after the match,
otherwise advance one position. -/
def findAllF : Nat → List Char → List (List Char)
  | 0, _ => []
  | _ + 1, [] => []
  | fuel + 1, c :: t =>
    if vertexBase.isPrefixOf (c :: t) then
      let after := (c :: t).drop vertexBase.length
      let tok := after.takeWhile isUrlChar
      if tok.isEmpty then findAllF fuel t
      else (vertexBase ++ tok) :: findAllF fuel (after.dropWhile isUrlChar)
    else findAllF fuel t

/-- All redirect URLs found in a text. -/
def findAllUrls (l : List Char) : List (List Char) :=
  findAllF l.length l

/-- `set(urls)` iteration, embedded as first-occurrence-order
de-duplication (CPython leaves set order unspecified; the properties
proved below do not depend on the iteration order). -/
def firstDedup (seen : List (List Char)) : List (List Char) → List (List Char)
  | [] => []
  | a :: t => if a ∈ seen then firstDedup seen t else a :: firstDedup (a :: seen) t

/-- Match of the pattern `\[[^\]]*\]\(` ++ `u` ++ `\)` at the head of
the text: `[`, a maximal run without `]`, then `](`, the URL literally,
then `)`. Returns the remainder after the match. -/
def mdMatch (u : List Char) : List Char → Option (List Char)
  | '[' :: t =>
    match t.dropWhile (fun c => !(c = ']')) with
    | ']' :: '(' :: r2 =>
      if u.isPrefixOf r2 then
        match r2.drop u.length with
        | ')' :: r3 => some r3
        | _ => none
      else none
    | _ => none
  | _ => none

/-- `re.search` for the markdown pattern: a match starts at some
position of the text. -/
def mdSearch (u : List Char) (l : List Char) : Bool :=
  (List.range l.length).any fun i => (mdMatch u (l.drop i)).isSome

/-- `re.sub` for the markdown pattern with a fixed replacement:
non-overlapping leftmost matches, each replaced by `rep`.  (The source
replacement string is interpolated from resolved and original URL; the
`re.sub` escape processing of the replacement is outside the embedded
fragment.) -/
def mdSubF (u rep : List Char) : Nat → List Char → List Char
  | 0, l => l
  | _ + 1, [] => []
  | fuel + 1, c :: t =>
    match mdMatch u (c :: t) with
    | some rest => rep ++ mdSubF u rep fuel rest
    | none => c :: mdSubF u rep fuel t

/-- `re.sub` at full fuel. -/
def mdSub (u rep l : List Char) : List Char :=
  mdSubF u rep l.length l

/-- `str.replace` with a non-empty needle: non-overlapping leftmost
occurrences of `n`, each replaced by `r`.  (All call sites pass a found
URL, which always starts with the 63-character head, so the needle is
never empty.) -/
def strReplaceF (n r : List Char) : Nat → List Char → List Char
  | 0, l => l
  | _ + 1, [] => []
  | fuel + 1, c :: t =>
    if n.isPrefixOf (c :: t) then r ++ strReplaceF n r fuel (t.drop (n.length - 1))
    else c :: strReplaceF n r fuel t

/-- `str.replace` at full fuel. -/
def strReplace (n r l : List Char) : List Char :=
  strReplaceF n r l.length l

/-- The replacement text `f"[{resolved}]({original})"`. -/
def mdRepl (resolved u : List Char) : List Char :=
  '[' :: resolved ++ ']' :: '(' :: u ++ [')']

/-- Processing of one distinct URL inside the loop body: resolve it; if
the resolution changed it, rewrite either all markdown-link occurrences
(when one exists in the current text) or all bare occurrences, and set
the modified flag. -/
def applyResolved (resolver : String → String) (text : List Char)
    (u : List Char) : List Char × Bool :=
  let r := (resolver (String.mk u)).data
  if r = u then (text, false)
  else
    let rep := mdRepl r u
    if mdSearch u text then (mdSub u rep text, true)
    else (strReplace u rep text, true)

/-- One iteration of the `for original_url in set(urls)` loop: current
text, modified flag, and the audit list of URLs passed to the
resolution lookup. -/
def resolveStep (resolver : String → String)
    (acc : List Char × Bool × List String) (u : List Char) :
    List Char × Bool × List String :=
  let step := applyResolved resolver acc.1 u
  (step.1, acc.2.1 || step.2, acc.2.2 ++ [String.mk u])

/-- Embedding of `resolve_investigator_urls` for one response part's
text.  Returns `some` rewritten text when at least one replacement
occurred and `none` otherwise (the source returns the response object
only if `modified`, else `None`), together with the list of URLs passed
to `resolve_vertex_redirect`, in order. -/
def resolve_investigator_urls (resolver : String → String) (text : String) :
    Option String × List String :=
  let urls := findAllUrls text.data
  let distinct := firstDedup [] urls
  let run := distinct.foldl (resolveStep resolver) (text.data, false, [])
  (if run.2.1 then some (String.mk run.1) else none, run.2.2)

/-! ## Span bookkeeping lemmas -/

theorem setAttr_statusHistory (s : Span) (k : String) (v : AttrValue) :
    (s.setAttr k v).statusHistory = s.statusHistory := rfl

theorem addAttrs_statusHistory (l : List (String × Option String)) (s : Span) :
    (addAttrs l s).statusHistory = s.statusHistory := by
  induction l generalizing s with
  | nil => rfl
  | cons kv t ih =>
    cases h : kv.2 <;> simp [addAttrs, h, List.foldl_cons, Span.setAttr] at ih ⊢ <;>
      exact ih _

theorem addAttrs_attributes (l : List (String × Option String)) (s : Span) :
    (addAttrs l s).attributes =
      s.attributes ++
        l.filterMap (fun kv => kv.2.map fun v => (kv.1, AttrValue.str v)) := by
  induction l generalizing s with
  | nil => simp [addAttrs]
  | cons kv t ih =>
    cases h : kv.2 <;>
      simp [addAttrs, h, List.foldl_cons, Span.setAttr] at ih ⊢ <;>
      simp [ih, Span.setAttr, List.append_assoc]

theorem create_conversation_span_statusHistory (fresh : String)
    (ctx : Option String) (operation_name : String) (input_data : Option PyVal)
    (additional : List (String × Option String)) :
    (create_conversation_span fresh ctx operation_name input_data
        additional).1.statusHistory = [] := by
  simp only [create_conversation_span, addAttrs_statusHistory]
  split
  · split <;> rfl
  · rfl

theorem record_agent_output_statusHistory (s : Span) (o : PyVal) (b : Bool) :
    (record_agent_output s o b).statusHistory =
      s.statusHistory ++
        [{ code := if b then StatusCode.ok else StatusCode.error,
           description := "" }] := by
  cases o <;> cases b <;>
    simp [record_agent_output, Span.setAttr, Span.setStatus]

theorem conversationTracer_exit_statusHistory (s : Span) (exc : Option PyException) :
    (conversationTracer_exit s exc).statusHistory =
      s.statusHistory ++
        (match exc with
          | some e => [{ code := StatusCode.error, description := e.message }]
          | none => []) := by
  cases exc <;>
    simp [conversationTracer_exit, Span.setAttr, Span.setStatus, Span.endSpan]

/-! ## C1: the wrapper is transparent and records the outcome status -/

/-- C1: for every operation wrapped by `trace_agent_call` and every
input, the wrapped call returns exactly the operation's outcome — on a
normal return the operation's result, on an exception the very same
exception (type and message) re-raised — and the enclosing span's final
status is OK on success and ERROR on exception. -/
theorem c1_trace_agent_call_transparent (agent_name operation : String)
    (f : List PyVal → List (String × PyVal) → Except PyException PyVal)
    (args : List PyVal) (kwargs : List (String × PyVal))
    (fresh : String) (ctx : Option String) :
    (trace_agent_call_run agent_name operation f args kwargs fresh ctx).1 =
      f args kwargs ∧
    (trace_agent_call_run agent_name operation f args kwargs fresh ctx).2.1.finalStatusCode =
      some (match f args kwargs with
        | Except.ok _ => StatusCode.ok
        | Except.error _ => StatusCode.error) := by
  cases h : f args kwargs with
  | ok v =>
    refine ⟨?_, ?_⟩ <;>
      simp [trace_agent_call_run, trace_agent_interaction, kwargsConflict, h,
        Span.finalStatusCode, conversationTracer_exit_statusHistory,
        record_agent_output_statusHistory, create_conversation_span_statusHistory]
  | error e =>
    refine ⟨?_, ?_⟩ <;>
      simp [trace_agent_call_run, trace_agent_interaction, kwargsConflict, h,
        Span.finalStatusCode, conversationTracer_exit_statusHistory,
        record_agent_output_statusHistory, create_conversation_span_statusHistory]

/-! ## C3: terminal status on every exit path, but not exactly once -/

/-- C3 counterexample: a wrapped operation that raises produces a span
whose status is set twice (once `ERROR` by `record_output`, once
`ERROR` again by `ConversationTracer.__exit__`), refuting "status is
never set more than once". -/
theorem c3_counterexample :
    ((trace_agent_call_run "writer" "process"
        (fun _ _ => Except.error { type_name := "ValueError", message := "boom" })
        [] [] "uuid-1" none).2.1.statusHistory =
      [{ code := StatusCode.error, description := "" },
       { code := StatusCode.error, description := "boom" }]) ∧
    ((trace_agent_call_run "writer" "process"
        (fun _ _ => Except.error { type_name := "ValueError", message := "boom" })
        [] [] "uuid-1" none).2.1.statusHistory.length ≠ 1) := by
  constructor <;> decide

/-- C3 (amended): every span owned by the `trace_agent_call` wrapper
reaches a terminal status on every exit path — exactly once (OK) on a
normal return, while on the exception path ERROR is set twice (once by
the output recording, once again at span exit), so the status history
is never empty and every recorded status on the exception path is
ERROR. -/
theorem c3_wrapper_status_on_all_exit_paths (agent_name operation : String)
    (f : List PyVal → List (String × PyVal) → Except PyException PyVal)
    (args : List PyVal) (kwargs : List (String × PyVal))
    (fresh : String) (ctx : Option String) :
    (trace_agent_call_run agent_name operation f args kwargs fresh ctx).2.1.statusHistory =
      (match f args kwargs with
        | Except.ok _ => [{ code := StatusCode.ok, description := "" }]
        | Except.error e =>
          [{ code := StatusCode.error, description := "" },
           { code := StatusCode.error, description := e.message }]) := by
  cases h : f args kwargs with
  | ok v =>
    simp [trace_agent_call_run, trace_agent_interaction, kwargsConflict, h,
      conversationTracer_exit_statusHistory, record_agent_output_statusHistory,
      create_conversation_span_statusHistory]
  | error e =>
    simp [trace_agent_call_run, trace_agent_interaction, kwargsConflict, h,
      conversationTracer_exit_statusHistory, record_agent_output_statusHistory,
      create_conversation_span_statusHistory]

/-! ## C2: the orchestrator cannot run at all -/

/-- C2 (code evaluated at the failing input): entering a
`TracedAgentOrchestrator` — and likewise any direct `delegate` call —
raises `TypeError: create_conversation_span() got multiple values for
keyword argument 'operation_type'`, because `trace_multi_agent_workflow`
and `trace_agent_delegation` forward `operation_type` through
`**attributes` of `trace_agent_interaction`, which already binds that
keyword explicitly.  No parent span is ever opened, so the
`workflow.agents_used` / `workflow.delegations_count` attributes the
claim describes are never recorded. -/
theorem c2_orchestrator_enter_and_delegate_raise_TypeError
    (fresh : String) (ctx : Option String) (workflow_name : String)
    (user_input : Option PyVal) (delegations : List String) (agent : Agent)
    (task_name : String) (input_data : PyVal) :
    orchestrator_enter fresh ctx workflow_name user_input =
      Except.error
        { type_name := "TypeError",
          message := "create_conversation_span() got multiple values for keyword argument \x27operation_type\x27" } ∧
    (orchestrator_delegate fresh ctx workflow_name delegations agent task_name
        input_data).2 =
      Except.error
        { type_name := "TypeError",
          message := "create_conversation_span() got multiple values for keyword argument \x27operation_type\x27" } := by
  exact ⟨rfl, rfl⟩

/-! ## C5: idempotence of `get_or_create_conversation_id` -/

/-- C5: within one unbroken chain, two successive calls return the same
id: with a truthy id active both calls return it and leave the store
unchanged; with no truthy id active the first call stores its fresh
uuid4 value (uuid4 strings are never empty, hence `f1 ≠ ""`) and the
second call returns that stored id.  The embedded operation is total,
so it never raises. -/
theorem c5_get_or_create_idempotent (ctx : Option String) (f1 f2 : String)
    (h1 : f1 ≠ "") :
    ((get_or_create_conversation_id f2
        (get_or_create_conversation_id f1 ctx).2).1 =
      (get_or_create_conversation_id f1 ctx).1) ∧
    ((get_or_create_conversation_id f2
        (get_or_create_conversation_id f1 ctx).2).2 =
      (get_or_create_conversation_id f1 ctx).2) ∧
    (∀ v, ctx = some v → v ≠ "" →
      (get_or_create_conversation_id f1 ctx).1 = v ∧
      (get_or_create_conversation_id f1 ctx).2 = ctx) ∧
    (strTruthy ctx = false →
      (get_or_create_conversation_id f1 ctx).1 = f1 ∧
      (get_or_create_conversation_id f1 ctx).2 = some f1) := by
  match ctx with
  | none => simp [get_or_create_conversation_id, strTruthy, h1]
  | some v =>
    by_cases hv : v = "" <;>
      simp [get_or_create_conversation_id, strTruthy, h1, hv]

/-- Witness for C5 at a concrete chain state. -/
theorem c5_witness :
    ((get_or_create_conversation_id "id-2"
        (get_or_create_conversation_id "id-1" none).2).1 =
      (get_or_create_conversation_id "id-1" none).1) ∧
    ((get_or_create_conversation_id "id-2"
        (get_or_create_conversation_id "id-1" none).2).2 =
      (get_or_create_conversation_id "id-1" none).2) ∧
    (∀ v, (none : Option String) = some v → v ≠ "" →
      (get_or_create_conversation_id "id-1" none).1 = v ∧
      (get_or_create_conversation_id "id-1" none).2 = none) ∧
    (strTruthy none = false →
      (get_or_create_conversation_id "id-1" none).1 = "id-1" ∧
      (get_or_create_conversation_id "id-1" none).2 = some "id-1") :=
  c5_get_or_create_idempotent none "id-1" "id-2" (by decide)

/-! ## C6: input preview truncation in the span factory -/

theorem lastAttr_append (l1 l2 : List (String × AttrValue)) (key : String) :
    lastAttr (l1 ++ l2) key =
      match lastAttr l2 key with
      | some w => some w
      | none => lastAttr l1 key := by
  induction l1 with
  | nil => cases h : lastAttr l2 key <;> simp [h, lastAttr]
  | cons kv t ih =>
    cases h : lastAttr l2 key <;> simp [h] at ih <;>
      simp [lastAttr, ih, h]

theorem lastAttr_eq_none (l : List (String × AttrValue)) (key : String)
    (h : ∀ kv ∈ l, kv.1 ≠ key) : lastAttr l key = none := by
  induction l with
  | nil => rfl
  | cons kv t ih =>
    have hk : kv.1 ≠ key := h kv (List.mem_cons_self _ _)
    have ht := ih fun x hx => h x (List.mem_cons_of_mem _ hx)
    simp [lastAttr, ht, hk]

theorem create_conversation_span_attributes_str (fresh : String)
    (ctx : Option String) (operation_name s : String)
    (additional : List (String × Option String)) (hs : s ≠ "") :
    (create_conversation_span fresh ctx operation_name (some (PyVal.str s))
        additional).1.attributes =
      [("conversation.id",
          AttrValue.str (get_or_create_conversation_id fresh ctx).1),
       ("conversation.session_id",
          AttrValue.str (get_or_create_conversation_id fresh ctx).1),
       ("service.name", AttrValue.str "adk_langfuse_service"),
       ("input.content", AttrValue.str ⟨s.data.take 1000⟩),
       ("input.length", AttrValue.int (s.data.length : Int))] ++
      additional.filterMap (fun kv => kv.2.map fun v => (kv.1, AttrValue.str v)) := by
  have ht : pyValTruthy (some (PyVal.str s)) = true := by
    simp [pyValTruthy, hs]
  simp [create_conversation_span, addAttrs_attributes, ht, Span.setAttr]

/-- C6 (amended): for every non-empty string input passed to the span
factory, the recorded `input.content` attribute is the input truncated
to at most 1000 characters and the recorded `input.length` attribute is
the input's original length (an empty string input, being falsy in
Python, records no input attributes at all — see the counterexample).
The `additional` attributes are assumed not to re-bind the two input
keys, which no caller in the repository does. -/
theorem c6_span_factory_truncates_input (fresh : String) (ctx : Option String)
    (operation_name s : String) (additional : List (String × Option String))
    (hs : s ≠ "")
    (h1 : ∀ kv ∈ additional, kv.1 ≠ "input.content")
    (h2 : ∀ kv ∈ additional, kv.1 ≠ "input.length") :
    (create_conversation_span fresh ctx operation_name (some (PyVal.str s))
        additional).1.getAttr "input.content" =
      some (AttrValue.str ⟨s.data.take 1000⟩) ∧
    (create_conversation_span fresh ctx operation_name (some (PyVal.str s))
        additional).1.getAttr "input.length" =
      some (AttrValue.int (s.data.length : Int)) ∧
    (s.data.take 1000).length ≤ 1000 := by
  have hmem1 : ∀ kv ∈ additional.filterMap
      (fun kv => kv.2.map fun v => (kv.1, AttrValue.str v)),
      kv.1 ≠ "input.content" := by
    intro p hp
    obtain ⟨a, ha, hfa⟩ := List.mem_filterMap.mp hp
    cases h : a.2 with
    | none => simp [h] at hfa
    | some v => simp [h] at hfa; rw [← hfa]; exact h1 a ha
  have hmem2 : ∀ kv ∈ additional.filterMap
      (fun kv => kv.2.map fun v => (kv.1, AttrValue.str v)),
      kv.1 ≠ "input.length" := by
    intro p hp
    obtain ⟨a, ha, hfa⟩ := List.mem_filterMap.mp hp
    cases h : a.2 with
    | none => simp [h] at hfa
    | some v => simp [h] at hfa; rw [← hfa]; exact h2 a ha
  refine ⟨?_, ?_, ?_⟩
  · show lastAttr _ _ = _
    rw [create_conversation_span_attributes_str fresh ctx operation_name s
      additional hs, lastAttr_append, lastAttr_eq_none _ _ hmem1]
    rfl
  · show lastAttr _ _ = _
    rw [create_conversation_span_attributes_str fresh ctx operation_name s
      additional hs, lastAttr_append, lastAttr_eq_none _ _ hmem2]
    rfl
  · rw [List.length_take]; exact min_le_left _ _

/-- C6 counterexample: an empty string input is falsy in Python, so the
span factory records neither `input.content` nor `input.length` —
refuting the claim's "for every string input". -/
theorem c6_counterexample :
    (create_conversation_span "uuid-1" none "op" (some (PyVal.str ""))
        []).1.getAttr "input.content" = none ∧
    (create_conversation_span "uuid-1" none "op" (some (PyVal.str ""))
        []).1.getAttr "input.length" = none :=
  ⟨rfl, rfl⟩

/-- Witness for C6 at the 5000-character input of the spec: the content
attribute is exactly 1000 characters and the recorded length is 5000. -/
theorem c6_witness :
    (create_conversation_span "uuid-1" none "op"
        (some (PyVal.str ⟨List.replicate 5000 'a'⟩)) []).1.getAttr
        "input.content" =
      some (AttrValue.str ⟨List.replicate 1000 'a'⟩) ∧
    (create_conversation_span "uuid-1" none "op"
        (some (PyVal.str ⟨List.replicate 5000 'a'⟩)) []).1.getAttr
        "input.length" = some (AttrValue.int 5000) ∧
    (String.mk (List.replicate 1000 'a')).data.length = 1000 := by
  have hne : (⟨List.replicate 5000 'a'⟩ : String) ≠ "" := by
    intro h
    have h2 : List.replicate 5000 'a' = ([] : List Char) := congrArg String.data h
    have h3 := congrArg List.length h2
    rw [List.length_replicate] at h3
    simp at h3
  have h := c6_span_factory_truncates_input "uuid-1" none "op"
    ⟨List.replicate 5000 'a'⟩ [] hne
    (by intro kv hkv; simp at hkv) (by intro kv hkv; simp at hkv)
  have htake : (List.replicate 5000 'a').take 1000 = List.replicate 1000 'a' := by
    rw [List.take_replicate]; norm_num
  have hlen : (List.replicate 5000 'a').length = 5000 := List.length_replicate _ _
  refine ⟨?_, ?_, by simp⟩
  · have := h.1; rw [show (String.mk (List.replicate 5000 'a')).data
      = List.replicate 5000 'a' from rfl, htake] at this; exact this
  · have := h.2.1; rw [show (String.mk (List.replicate 5000 'a')).data
      = List.replicate 5000 'a' from rfl, hlen] at this
    exact_mod_cast this

/-! ## C4: isolation of concurrent chains -/

theorem chainInv_step (gen : Nat → String) (allowed : String → Prop)
    (t : RunTrace) (e : ChainId × CtxOp)
    (hset : ∀ v, e = (ChainId.chain1, CtxOp.setId v) → allowed v)
    (h : ChainInv gen allowed t) : ChainInv gen allowed (stepChain gen t e) := by
  obtain ⟨m1, m2, dj, cg, og⟩ := h
  rcases e with ⟨who, op⟩
  cases who with
  | chain1 =>
    cases op with
    | getOrCreate =>
      by_cases hT : strTruthy t.world.ctx1 = true
      · cases hc : t.world.ctx1 with
        | none => rw [hc] at hT; simp [strTruthy] at hT
        | some v =>
          have hv : ¬ v = "" := by
            rw [hc] at hT; simpa [strTruthy] using hT
          have hr : getOrCreateIn gen t.world.counter t.world.ctx1 =
              ((v, some v), t.world.counter, []) := by
            simp [getOrCreateIn, strTruthy, hc, hv, get_or_create_conversation_id]
          have key : stepChain gen t (ChainId.chain1, CtxOp.getOrCreate) =
              { world := { t.world with ctx1 := some v, counter := t.world.counter },
                consumed1 := t.consumed1, consumed2 := t.consumed2,
                observed1 := t.observed1 ++ [v], observed2 := t.observed2 } := by
            simp [stepChain, hr]
          rw [key]
          refine ⟨m1, m2, dj, ?_, ?_⟩
          · intro w hw
            simp only at hw
            rw [show w = v from (Option.some.inj hw).symm]
            exact cg v hc
          · intro id hid
            rcases List.mem_append.mp hid with hold | hnew
            · exact og id hold
            · rw [List.mem_singleton.mp hnew]
              exact cg v hc
      · have hF : strTruthy t.world.ctx1 = false := by
          revert hT; cases strTruthy t.world.ctx1 <;> simp
        have hr : getOrCreateIn gen t.world.counter t.world.ctx1 =
            ((gen t.world.counter, some (gen t.world.counter)),
              t.world.counter + 1, [t.world.counter]) := by
          cases hc : t.world.ctx1 with
          | none => simp [getOrCreateIn, strTruthy, get_or_create_conversation_id]
          | some v =>
            have hv : v = "" := by
              rw [hc] at hF
              by_contra hne
              simp [strTruthy, hne] at hF
            subst hv
            simp [getOrCreateIn, strTruthy, get_or_create_conversation_id]
        have key : stepChain gen t (ChainId.chain1, CtxOp.getOrCreate) =
            { world :=
                { t.world with
                  ctx1 := some (gen t.world.counter)
                  counter := t.world.counter + 1 },
              consumed1 := t.consumed1 ++ [t.world.counter],
              consumed2 := t.consumed2,
              observed1 := t.observed1 ++ [gen t.world.counter],
              observed2 := t.observed2 } := by
          simp [stepChain, hr]
        rw [key]
        refine ⟨?_, ?_, ?_, ?_, ?_⟩
        · intro n hn
          rcases List.mem_append.mp hn with hold | hnew
          · exact Nat.lt_succ_of_lt (m1 n hold)
          · rw [List.mem_singleton.mp hnew]; exact Nat.lt_succ_self _
        · intro n hn
          exact Nat.lt_succ_of_lt (m2 n hn)
        · intro n hn1 hn2
          rcases List.mem_append.mp hn1 with hold | hnew
          · exact dj n hold hn2
          · rw [List.mem_singleton.mp hnew] at hn2
            exact absurd (m2 _ hn2) (Nat.lt_irrefl _)
        · intro w hw
          simp only at hw
          rw [show w = gen t.world.counter from (Option.some.inj hw).symm]
          exact Or.inl ⟨t.world.counter,
            List.mem_append.mpr (Or.inr (List.mem_singleton.mpr rfl)), rfl⟩
        · intro id hid
          rcases List.mem_append.mp hid with hold | hnew
          · rcases og id hold with ⟨n, hn, hgen⟩ | hall
            · exact Or.inl ⟨n, List.mem_append.mpr (Or.inl hn), hgen⟩
            · exact Or.inr hall
          · rw [List.mem_singleton.mp hnew]
            exact Or.inl ⟨t.world.counter,
              List.mem_append.mpr (Or.inr (List.mem_singleton.mpr rfl)), rfl⟩
    | setId v =>
      have hv : allowed v := hset v rfl
      have key : stepChain gen t (ChainId.chain1, CtxOp.setId v) =
          { t with world := { t.world with ctx1 := some v } } := by
        simp [stepChain, set_conversation_id]
      rw [key]
      refine ⟨m1, m2, dj, ?_, og⟩
      intro w hw
      simp only at hw
      rw [show w = v from (Option.some.inj hw).symm]
      exact Or.inr hv
  | chain2 =>
    cases op with
    | getOrCreate =>
      by_cases hT : strTruthy t.world.ctx2 = true
      · cases hc : t.world.ctx2 with
        | none => rw [hc] at hT; simp [strTruthy] at hT
        | some v =>
          have hv : ¬ v = "" := by
            rw [hc] at hT; simpa [strTruthy] using hT
          have hr : getOrCreateIn gen t.world.counter t.world.ctx2 =
              ((v, some v), t.world.counter, []) := by
            simp [getOrCreateIn, strTruthy, hc, hv, get_or_create_conversation_id]
          have key : stepChain gen t (ChainId.chain2, CtxOp.getOrCreate) =
              { world := { t.world with ctx2 := some v, counter := t.world.counter },
                consumed1 := t.consumed1, consumed2 := t.consumed2,
                observed1 := t.observed1, observed2 := t.observed2 ++ [v] } := by
            simp [stepChain, hr]
          rw [key]
          exact ⟨m1, m2, dj, cg, og⟩
      · have hF : strTruthy t.world.ctx2 = false := by
          revert hT; cases strTruthy t.world.ctx2 <;> simp
        have hr : getOrCreateIn gen t.world.counter t.world.ctx2 =
            ((gen t.world.counter, some (gen t.world.counter)),
              t.world.counter + 1, [t.world.counter]) := by
          cases hc : t.world.ctx2 with
          | none => simp [getOrCreateIn, strTruthy, get_or_create_conversation_id]
          | some v =>
            have hv : v = "" := by
              rw [hc] at hF
              by_contra hne
              simp [strTruthy, hne] at hF
            subst hv
            simp [getOrCreateIn, strTruthy, get_or_create_conversation_id]
        have key : stepChain gen t (ChainId.chain2, CtxOp.getOrCreate) =
            { world :=
                { t.world with
                  ctx2 := some (gen t.world.counter)
                  counter := t.world.counter + 1 },
              consumed1 := t.consumed1,
              consumed2 := t.consumed2 ++ [t.world.counter],
              observed1 := t.observed1,
              observed2 := t.observed2 ++ [gen t.world.counter] } := by
          simp [stepChain, hr]
        rw [key]
        refine ⟨?_, ?_, ?_, ?_, ?_⟩
        · intro n hn
          exact Nat.lt_succ_of_lt (m1 n hn)
        · intro n hn
          rcases List.mem_append.mp hn with hold | hnew
          · exact Nat.lt_succ_of_lt (m2 n hold)
          · rw [List.mem_singleton.mp hnew]; exact Nat.lt_succ_self _
        · intro n hn1 hn2
          rcases List.mem_append.mp hn2 with hold | hnew
          · exact dj n hn1 hold
          · rw [List.mem_singleton.mp hnew] at hn1
            exact absurd (m1 _ hn1) (Nat.lt_irrefl _)
        · exact cg
        · exact og
    | setId v =>
      have key : stepChain gen t (ChainId.chain2, CtxOp.setId v) =
          { t with world := { t.world with ctx2 := some v } } := by
        simp [stepChain, set_conversation_id]
      rw [key]
      exact ⟨m1, m2, dj, cg, og⟩

theorem chainInv_run (gen : Nat → String) (allowed : String → Prop) :
    ∀ (sched : List (ChainId × CtxOp)) (t : RunTrace),
      (∀ v, (ChainId.chain1, CtxOp.setId v) ∈ sched → allowed v) →
      ChainInv gen allowed t →
      ChainInv gen allowed (sched.foldl (stepChain gen) t)
  | [], _, _, h => h
  | e :: rest, t, hs, h => by
    have h1 := chainInv_step gen allowed t e
      (fun v hv => hs v (by rw [hv]; exact List.mem_cons_self _ _)) h
    exact chainInv_run gen allowed rest _
      (fun v hv => hs v (List.mem_cons_of_mem _ hv)) h1

/-- C4: two concurrently running chains never interfere through the
conversation store.  First, a step of either chain (a
`set_conversation_id` or a `get_or_create_conversation_id`) never
changes the id visible to the other chain.  Second, for an injective
uuid supply (uuid4 values are globally unique), if no value explicitly
`set` into chain 1 is an id generated for chain 2, then no id chain 1
ever observes equals any id generated for chain 2. -/
theorem c4_no_cross_chain_leakage :
    (∀ (gen : Nat → String) (t : RunTrace) (op : CtxOp),
      (stepChain gen t (ChainId.chain1, op)).world.ctx2 = t.world.ctx2 ∧
      (stepChain gen t (ChainId.chain2, op)).world.ctx1 = t.world.ctx1) ∧
    (∀ (gen : Nat → String) (sched : List (ChainId × CtxOp)),
      (∀ i j, gen i = gen j → i = j) →
      (∀ v, (ChainId.chain1, CtxOp.setId v) ∈ sched →
        ∀ n ∈ (runChains gen sched).consumed2, v ≠ gen n) →
      ∀ id ∈ (runChains gen sched).observed1,
        ∀ n ∈ (runChains gen sched).consumed2, id ≠ gen n) := by
  constructor
  · intro gen t op
    cases op <;> exact ⟨rfl, rfl⟩
  · intro gen sched hinj hprop
    have hinit : ChainInv gen
        (fun v => ∀ n ∈ (runChains gen sched).consumed2, v ≠ gen n) initTrace := by
      refine ⟨?_, ?_, ?_, ?_, ?_⟩ <;> simp [initTrace]
    have hfin := chainInv_run gen
      (fun v => ∀ n ∈ (runChains gen sched).consumed2, v ≠ gen n)
      sched initTrace hprop hinit
    obtain ⟨-, -, dj, -, og⟩ := hfin
    intro id hid n hn heq
    rcases og id hid with ⟨m, hm, hgen⟩ | hall
    · have : m = n := hinj m n (by rw [← hgen, heq])
      exact dj m hm (by rwa [this])
    · exact hall n hn heq

/-- Witness for C4: an injective supply and a concrete interleaving in
which chain 2 generates an id and chain 1 then generates its own; the
conclusion is non-vacuous because chain 1 observes `"xx"` while chain 2
generated `"x"`. -/
theorem c4_witness :
    (∀ id ∈ (runChains (fun n => String.mk (List.replicate (n + 1) 'x'))
        [(ChainId.chain2, CtxOp.getOrCreate),
         (ChainId.chain1, CtxOp.getOrCreate)]).observed1,
      ∀ n ∈ (runChains (fun n => String.mk (List.replicate (n + 1) 'x'))
        [(ChainId.chain2, CtxOp.getOrCreate),
         (ChainId.chain1, CtxOp.getOrCreate)]).consumed2,
      id ≠ String.mk (List.replicate (n + 1) 'x')) ∧
    (runChains (fun n => String.mk (List.replicate (n + 1) 'x'))
        [(ChainId.chain2, CtxOp.getOrCreate),
         (ChainId.chain1, CtxOp.getOrCreate)]).observed1 = ["xx"] ∧
    (runChains (fun n => String.mk (List.replicate (n + 1) 'x'))
        [(ChainId.chain2, CtxOp.getOrCreate),
         (ChainId.chain1, CtxOp.getOrCreate)]).consumed2 = [0] := by
  refine ⟨?_, by decide, by decide⟩
  exact c4_no_cross_chain_leakage.2
    (fun n => String.mk (List.replicate (n + 1) 'x'))
    [(ChainId.chain2, CtxOp.getOrCreate), (ChainId.chain1, CtxOp.getOrCreate)]
    (by
      intro i j h
      have h2 : List.replicate (i + 1) 'x' = List.replicate (j + 1) 'x' :=
        congrArg String.data h
      have h3 := congrArg List.length h2
      simp only [List.length_replicate] at h3
      omega)
    (by intro v hv; simp at hv)

/-! ## C10: Discord message limit clamping -/

/-- C10: every request issued by `get_discord_channel_messages` carries
`limit = max(1, min(limit, 100))`, which always lies in `[1, 100]`;
with a non-empty channel id and a configured token exactly one such
request is issued; an empty channel id yields an error result and no
request. -/
theorem c10_discord_limit_clamped (token : Option String)
    (net : ApiCall → NetResult) (channel_id : String) (limit : Int) :
    (∀ c ∈ (get_discord_channel_messages token net channel_id limit).2,
      c.params = [("limit", max 1 (min limit 100))]) ∧
    (1 ≤ max 1 (min limit 100) ∧ max 1 (min limit 100) ≤ 100) ∧
    (channel_id = "" →
      (get_discord_channel_messages token net channel_id limit).2 = [] ∧
      (get_discord_channel_messages token net channel_id limit).1 =
        [("status", DVal.s "error"),
         ("error_message", DVal.s "Channel ID is required to fetch Discord messages.")]) ∧
    (channel_id ≠ "" → ∀ tok, token = some tok →
      (get_discord_channel_messages token net channel_id limit).2 =
        [{ api := "discord", method := "GET",
           url := joinUrl DISCORD_API_URL ("channels/" ++ channel_id ++ "/messages"),
           params := [("limit", max 1 (min limit 100))], payload := none }]) := by
  by_cases hch : channel_id = ""
  · refine ⟨?_, ⟨le_max_left _ _, max_le (by norm_num) (min_le_right _ _)⟩, ?_, ?_⟩
    · intro c hc
      simp only [get_discord_channel_messages, if_pos hch] at hc
      simp at hc
    · intro _
      refine ⟨?_, ?_⟩ <;> simp [get_discord_channel_messages, hch]
    · intro hne
      exact absurd hch hne
  · have hcalls : ∀ tok, token = some tok →
        (get_discord_channel_messages token net channel_id limit).2 =
          [{ api := "discord", method := "GET",
             url := joinUrl DISCORD_API_URL ("channels/" ++ channel_id ++ "/messages"),
             params := [("limit", max 1 (min limit 100))], payload := none }] := by
      intro tok htok
      subst htok
      simp only [get_discord_channel_messages, if_neg hch]
      split <;> rfl
    refine ⟨?_, ⟨le_max_left _ _, max_le (by norm_num) (min_le_right _ _)⟩,
      fun h => absurd h hch, fun _ => hcalls⟩
    intro c hc
    cases token with
    | none =>
      simp only [get_discord_channel_messages, if_neg hch] at hc
      have : (if dGet (make_discord_request none net "GET"
          ("channels/" ++ channel_id ++ "/messages")
          [("limit", max 1 (min limit 100))] none).1 "status" =
            some (DVal.s "success") then
          ([("status", DVal.s "success"),
            ("messages", (dGet (make_discord_request none net "GET"
              ("channels/" ++ channel_id ++ "/messages")
              [("limit", max 1 (min limit 100))] none).1 "data").getD DVal.nullv)],
            (make_discord_request none net "GET"
              ("channels/" ++ channel_id ++ "/messages")
              [("limit", max 1 (min limit 100))] none).2)
        else make_discord_request none net "GET"
          ("channels/" ++ channel_id ++ "/messages")
          [("limit", max 1 (min limit 100))] none).2 = [] := by
        split <;> rfl
      rw [this] at hc
      simp at hc
    | some tok =>
      rw [hcalls tok rfl] at hc
      rw [List.mem_singleton.mp hc]

/-- Witness for C10 with a concrete channel, token and out-of-range
limit: the one issued request carries the clamped limit 100. -/
theorem c10_witness :
    (get_discord_channel_messages (some "tk")
        (fun _ => NetResult.requestError "down") "chan-9" 250).2 =
      [{ api := "discord", method := "GET",
         url := joinUrl DISCORD_API_URL "channels/chan-9/messages",
         params := [("limit", max 1 (min 250 100))], payload := none }] ∧
    (1 ≤ max 1 (min (250 : Int) 100) ∧ max 1 (min (250 : Int) 100) ≤ 100) ∧
    max 1 (min (250 : Int) 100) = 100 := by
  have h := c10_discord_limit_clamped (some "tk")
    (fun _ => NetResult.requestError "down") "chan-9" 250
  refine ⟨h.2.2.2 (by decide) "tk" rfl, h.2.1, by decide⟩

/-! ## C9: missing credentials -/

/-- C9 counterexample: `update_hackmd_note` called with no update
fields while `HACKMD_API_TOKEN` is absent returns the `"info"` result
of its own argument validation — not a configuration-error result with
status `"error"` naming the missing variable, refuting the claim as
universally stated (no network call is made either way). -/
theorem c9_counterexample :
    update_hackmd_note none (fun _ => NetResult.requestError "unreachable")
        "note-1" none none none none =
      ([("status", DVal.s "info"),
        ("message", DVal.s "No update parameters provided for the note.")], []) ∧
    dGet (update_hackmd_note none (fun _ => NetResult.requestError "unreachable")
        "note-1" none none none none).1 "status" ≠ some (DVal.s "error") := by
  exact ⟨rfl, by decide⟩

/-- C9 (amended): with the corresponding bearer-token environment
variable absent, every one of the five external-service operations
returns without raising (the embedded operations are total) and without
issuing any network request; whenever the call passes the operation's
own argument validation, the result is the configuration error
`status = "error"` whose message names the missing variable; otherwise
the operation's own validation result is returned (still without any
network call). -/
theorem c9_missing_credential_refuses (net : ApiCall → NetResult)
    (note_id : String)
    (title content rp wp cp pl : Option String)
    (nid : String) (uc urp uwp upl : Option String)
    (owner repo gtitle : String) (gbody : Option String)
    (assignees labels : Option (List String))
    (channel_id : String) (limit : Int) :
    (read_hackmd_note none net note_id =
      ([("status", DVal.s "error"),
        ("error_message",
          DVal.s "HACKMD_API_TOKEN is not set in environment variables.")], [])) ∧
    ((create_hackmd_note none net title content rp wp cp pl).2 = [] ∧
     ((title ≠ none ∨ content ≠ none ∨ rp ≠ none ∨ wp ≠ none ∨ cp ≠ none ∨
        pl ≠ none) →
       (create_hackmd_note none net title content rp wp cp pl).1 =
         [("status", DVal.s "error"),
          ("error_message",
            DVal.s "HACKMD_API_TOKEN is not set in environment variables.")]) ∧
     ((title = none ∧ content = none ∧ rp = none ∧ wp = none ∧ cp = none ∧
        pl = none) →
       (create_hackmd_note none net title content rp wp cp pl).1 =
         [("status", DVal.s "error"),
          ("error_message",
            DVal.s "Cannot create an empty note. Please provide title, content, or other attributes.")])) ∧
    ((update_hackmd_note none net nid uc urp uwp upl).2 = [] ∧
     ((uc ≠ none ∨ urp ≠ none ∨ uwp ≠ none ∨ upl ≠ none) →
       (update_hackmd_note none net nid uc urp uwp upl).1 =
         [("status", DVal.s "error"),
          ("error_message",
            DVal.s "HACKMD_API_TOKEN is not set in environment variables.")]) ∧
     ((uc = none ∧ urp = none ∧ uwp = none ∧ upl = none) →
       (update_hackmd_note none net nid uc urp uwp upl).1 =
         [("status", DVal.s "info"),
          ("message", DVal.s "No update parameters provided for the note.")])) ∧
    ((create_github_issue none net owner repo gtitle gbody assignees labels).2 = [] ∧
     ((owner ≠ "" ∧ repo ≠ "" ∧ gtitle ≠ "") →
       (create_github_issue none net owner repo gtitle gbody assignees labels).1 =
         [("status", DVal.s "error"),
          ("error_message",
            DVal.s "GITHUB_PERSONAL_ACCESS_TOKEN is not set in environment variables.")]) ∧
     ((owner = "" ∨ repo = "" ∨ gtitle = "") →
       (create_github_issue none net owner repo gtitle gbody assignees labels).1 =
         [("status", DVal.s "error"),
          ("error_message",
            DVal.s "Owner, repo, and title are required to create a GitHub issue.")])) ∧
    ((get_discord_channel_messages none net channel_id limit).2 = [] ∧
     (channel_id ≠ "" →
       (get_discord_channel_messages none net channel_id limit).1 =
         [("status", DVal.s "error"),
          ("error_message",
            DVal.s "DISCORD_BOT_TOKEN is not set in environment variables.")]) ∧
     (channel_id = "" →
       (get_discord_channel_messages none net channel_id limit).1 =
         [("status", DVal.s "error"),
          ("error_message",
            DVal.s "Channel ID is required to fetch Discord messages.")])) := by
  refine ⟨rfl, ⟨?_, ?_, ?_⟩, ⟨?_, ?_, ?_⟩, ⟨?_, ?_, ?_⟩, ⟨?_, ?_, ?_⟩⟩
  · rcases title with _ | tv <;> rcases content with _ | cv <;>
      rcases rp with _ | rv <;> rcases wp with _ | wv <;>
      rcases cp with _ | pv <;> rcases pl with _ | lv <;> rfl
  · intro h
    rcases title with _ | tv <;> rcases content with _ | cv <;>
      rcases rp with _ | rv <;> rcases wp with _ | wv <;>
      rcases cp with _ | pv <;> rcases pl with _ | lv <;>
      first
        | (exfalso; rcases h with h | h | h | h | h | h <;> exact h rfl)
        | rfl
  · rintro ⟨rfl, rfl, rfl, rfl, rfl, rfl⟩
    rfl
  · rcases uc with _ | a <;> rcases urp with _ | b <;>
      rcases uwp with _ | c <;> rcases upl with _ | d <;> rfl
  · intro h
    rcases uc with _ | a <;> rcases urp with _ | b <;>
      rcases uwp with _ | c <;> rcases upl with _ | d <;>
      first
        | (exfalso; rcases h with h | h | h | h <;> exact h rfl)
        | rfl
  · rintro ⟨rfl, rfl, rfl, rfl⟩
    rfl
  · by_cases hg : owner = "" ∨ repo = "" ∨ gtitle = ""
    · simp only [create_github_issue, if_pos hg]
    · simp only [create_github_issue, if_neg hg]
      split <;> rfl
  · intro h
    have hg : ¬(owner = "" ∨ repo = "" ∨ gtitle = "") := by
      rintro (hc | hc | hc)
      exacts [h.1 hc, h.2.1 hc, h.2.2 hc]
    simp only [create_github_issue, if_neg hg]
    rfl
  · intro h
    simp only [create_github_issue, if_pos h]
  · by_cases hc : channel_id = ""
    · simp only [get_discord_channel_messages, if_pos hc]
    · simp only [get_discord_channel_messages, if_neg hc]
      split <;> rfl
  · intro h
    simp only [get_discord_channel_messages, if_neg h]
    rfl
  · intro h
    simp only [get_discord_channel_messages, if_pos h]

/-- Witness for C9: concrete invocations with each credential absent:
each operation returns its configuration error naming the variable and
issues no request. -/
theorem c9_witness :
    (read_hackmd_note none (fun _ => NetResult.requestError "down") "n1" =
      ([("status", DVal.s "error"),
        ("error_message",
          DVal.s "HACKMD_API_TOKEN is not set in environment variables.")], [])) ∧
    ((create_hackmd_note none (fun _ => NetResult.requestError "down")
        (some "Title") none none none none none).1 =
      [("status", DVal.s "error"),
       ("error_message",
         DVal.s "HACKMD_API_TOKEN is not set in environment variables.")]) ∧
    ((update_hackmd_note none (fun _ => NetResult.requestError "down")
        "n1" (some "new text") none none none).1 =
      [("status", DVal.s "error"),
       ("error_message",
         DVal.s "HACKMD_API_TOKEN is not set in environment variables.")]) ∧
    ((create_github_issue none (fun _ => NetResult.requestError "down")
        "octocat" "Spoon-Knife" "Bug report" none none none).1 =
      [("status", DVal.s "error"),
       ("error_message",
         DVal.s "GITHUB_PERSONAL_ACCESS_TOKEN is not set in environment variables.")]) ∧
    ((get_discord_channel_messages none (fun _ => NetResult.requestError "down")
        "chan-1" 50).1 =
      [("status", DVal.s "error"),
       ("error_message",
         DVal.s "DISCORD_BOT_TOKEN is not set in environment variables.")]) ∧
    ((create_hackmd_note none (fun _ => NetResult.requestError "down")
        (some "Title") none none none none none).2 = []) ∧
    ((get_discord_channel_messages none (fun _ => NetResult.requestError "down")
        "chan-1" 50).2 = []) := by
  have h := c9_missing_credential_refuses
    (fun _ => NetResult.requestError "down") "n1"
    (some "Title") none none none none none
    "n1" (some "new text") none none none
    "octocat" "Spoon-Knife" "Bug report" none none none
    "chan-1" 50
  exact ⟨h.1, h.2.1.2.1 (by simp), h.2.2.1.2.1 (by simp),
    h.2.2.2.1.2.1 (by refine ⟨?_, ?_, ?_⟩ <;> decide),
    h.2.2.2.2.2.1 (by decide), h.2.1.1, h.2.2.2.2.1⟩

/-! ## Scanner lemmas for the redirect resolver -/

theorem mdSubF_skip (u rep : List Char) :
    ∀ (a rest : List Char) (fuel : Nat),
      (∀ i, i < a.length → mdMatch u ((a ++ rest).drop i) = none) →
      mdSubF u rep (a.length + fuel) (a ++ rest) = a ++ mdSubF u rep fuel rest := by
  intro a
  induction a with
  | nil => intro rest fuel _; simp
  | cons c a' ih =>
    intro rest fuel h
    have hc : mdMatch u (c :: (a' ++ rest)) = none := by
      have := h 0 (by simp)
      simpa using this
    have hlen : (c :: a').length + fuel = (a'.length + fuel) + 1 := by
      simp [List.length_cons]; omega
    rw [hlen]
    show mdSubF u rep ((a'.length + fuel) + 1) (c :: (a' ++ rest)) = _
    simp only [mdSubF, hc]
    rw [ih rest fuel (fun i hi => by
      have := h (i + 1) (by simp; omega)
      simpa [List.drop_succ_cons] using this)]
    rfl

theorem mdSubF_nomatch (u rep : List Char) :
    ∀ (l : List Char) (fuel : Nat), l.length ≤ fuel →
      (∀ i, i < l.length → mdMatch u (l.drop i) = none) →
      mdSubF u rep fuel l = l := by
  intro l
  induction l with
  | nil => intro fuel _ _; cases fuel <;> rfl
  | cons c t ih =>
    intro fuel hf h
    cases fuel with
    | zero => simp at hf
    | succ f =>
      have hc : mdMatch u (c :: t) = none := by
        have := h 0 (by simp)
        simpa using this
      simp only [mdSubF, hc]
      rw [ih f (by simpa [List.length_cons] using hf) (fun i hi => by
        have := h (i + 1) (by simp; omega)
        simpa [List.drop_succ_cons] using this)]

theorem dropWhile_label (rest : List Char) :
    ∀ (lab : List Char), (∀ ch ∈ lab, ch ≠ ']') →
      (lab ++ (']' :: rest)).dropWhile (fun ch => !(ch = ']')) = ']' :: rest := by
  intro lab
  induction lab with
  | nil => intro _; simp [List.dropWhile_cons]
  | cons x xs ih =>
    intro h
    have hx : ¬ x = ']' := h x (List.mem_cons_self _ _)
    simp [List.dropWhile_cons, hx,
      ih (fun ch hch => h ch (List.mem_cons_of_mem _ hch))]

theorem mdMatch_construct (u lab c : List Char) (hlab : ∀ ch ∈ lab, ch ≠ ']') :
    mdMatch u ('[' :: (lab ++ (']' :: '(' :: (u ++ (')' :: c))))) = some c := by
  have hdw := dropWhile_label ('(' :: (u ++ (')' :: c))) lab hlab
  simp only [mdMatch, hdw]
  rw [List.isPrefixOf_iff_prefix.mpr (List.prefix_append u _)]
  simp [List.drop_left]

theorem mdMatch_nonempty {u l : List Char} {r : List Char}
    (h : mdMatch u l = some r) : l ≠ [] := by
  intro hl
  subst hl
  simp [mdMatch] at h

theorem mdSearch_of_match (u a rest : List Char) {r : List Char}
    (h : mdMatch u rest = some r) : mdSearch u (a ++ rest) = true := by
  apply List.any_eq_true.mpr
  refine ⟨a.length, List.mem_range.mpr ?_, ?_⟩
  · have : rest ≠ [] := mdMatch_nonempty h
    have : 0 < rest.length := List.length_pos.mpr this
    simp [List.length_append]
    omega
  · rw [List.drop_left, h]
    simp

theorem mdSub_one_construct (u rep a lab c : List Char)
    (hlab : ∀ ch ∈ lab, ch ≠ ']')
    (hA : ∀ i, i < a.length →
      mdMatch u ((a ++ ('[' :: (lab ++ (']' :: '(' :: (u ++ (')' :: c)))))).drop i) = none)
    (hC : ∀ i, i < c.length → mdMatch u (c.drop i) = none) :
    mdSub u rep (a ++ ('[' :: (lab ++ (']' :: '(' :: (u ++ (')' :: c)))))) =
      a ++ (rep ++ c) := by
  set inner := '[' :: (lab ++ (']' :: '(' :: (u ++ (')' :: c)))) with hinner
  have hlen : (a ++ inner).length = a.length + inner.length := List.length_append _ _
  unfold mdSub
  rw [hlen, mdSubF_skip u rep a inner inner.length hA]
  congr 1
  have hfuel : inner.length = (inner.length - 1) + 1 := by
    rw [hinner]; simp [List.length_cons]
  rw [hfuel, hinner]
  simp only [mdSubF, mdMatch_construct u lab c hlab]
  congr 1
  apply mdSubF_nomatch u rep c _ _ hC
  simp [List.length_cons, List.length_append]
  omega

theorem strReplaceF_skip (n r : List Char) :
    ∀ (a rest : List Char) (fuel : Nat),
      (∀ i, i < a.length → n.isPrefixOf ((a ++ rest).drop i) = false) →
      strReplaceF n r (a.length + fuel) (a ++ rest) =
        a ++ strReplaceF n r fuel rest := by
  intro a
  induction a with
  | nil => intro rest fuel _; simp
  | cons c a' ih =>
    intro rest fuel h
    have hc : n.isPrefixOf (c :: (a' ++ rest)) = false := by
      have := h 0 (by simp)
      simpa using this
    have hlen : (c :: a').length + fuel = (a'.length + fuel) + 1 := by
      simp [List.length_cons]; omega
    rw [hlen]
    show strReplaceF n r ((a'.length + fuel) + 1) (c :: (a' ++ rest)) = _
    simp only [strReplaceF, hc]
    rw [ih rest fuel (fun i hi => by
      have := h (i + 1) (by simp; omega)
      simpa [List.drop_succ_cons] using this)]
    simp

theorem strReplaceF_nomatch (n r : List Char) :
    ∀ (l : List Char) (fuel : Nat), l.length ≤ fuel →
      (∀ i, i < l.length → n.isPrefixOf (l.drop i) = false) →
      strReplaceF n r fuel l = l := by
  intro l
  induction l with
  | nil => intro fuel _ _; cases fuel <;> rfl
  | cons c t ih =>
    intro fuel hf h
    cases fuel with
    | zero => simp at hf
    | succ f =>
      have hc : n.isPrefixOf (c :: t) = false := by
        have := h 0 (by simp)
        simpa using this
      simp only [strReplaceF, hc]
      rw [ih f (by simpa [List.length_cons] using hf) (fun i hi => by
        have := h (i + 1) (by simp; omega)
        simpa [List.drop_succ_cons] using this)]
      simp

theorem strReplaceF_head (n r rest : List Char) (fuel : Nat) (hn : n ≠ []) :
    strReplaceF n r (fuel + 1) (n ++ rest) = r ++ strReplaceF n r fuel rest := by
  match n, hn with
  | n0 :: nt, _ =>
    show strReplaceF (n0 :: nt) r (fuel + 1) (n0 :: (nt ++ rest)) = _
    have hp : (n0 :: nt).isPrefixOf (n0 :: (nt ++ rest)) = true :=
      List.isPrefixOf_iff_prefix.mpr (List.prefix_append (n0 :: nt) rest)
    have hdrop : (nt ++ rest).drop ((n0 :: nt).length - 1) = rest := by
      simp only [List.length_cons, Nat.add_sub_cancel]
      exact List.drop_left nt rest
    simp only [strReplaceF]
    rw [if_pos hp, hdrop]

theorem strReplace_two_bare (u rep a m b : List Char) (hu : u ≠ [])
    (hA : ∀ i, i < a.length →
      u.isPrefixOf ((a ++ (u ++ (m ++ (u ++ b)))).drop i) = false)
    (hM : ∀ i, i < m.length → u.isPrefixOf ((m ++ (u ++ b)).drop i) = false)
    (hB : ∀ i, i < b.length → u.isPrefixOf (b.drop i) = false) :
    strReplace u rep (a ++ (u ++ (m ++ (u ++ b)))) =
      a ++ (rep ++ (m ++ (rep ++ b))) := by
  have hulen : 0 < u.length := List.length_pos.mpr hu
  unfold strReplace
  rw [show (a ++ (u ++ (m ++ (u ++ b)))).length =
      a.length + (u ++ (m ++ (u ++ b))).length from List.length_append _ _]
  rw [strReplaceF_skip u rep a _ _ hA]
  congr 1
  have h1 : (u ++ (m ++ (u ++ b))).length =
      (u.length - 1 + (m ++ (u ++ b)).length) + 1 := by
    simp [List.length_append]
    omega
  rw [h1, strReplaceF_head u rep _ _ hu]
  congr 1
  rw [show u.length - 1 + (m ++ (u ++ b)).length =
      m.length + (u.length - 1 + (u ++ b).length) from by
    simp [List.length_append]; omega]
  rw [strReplaceF_skip u rep m _ _ hM]
  congr 1
  rw [show u.length - 1 + (u ++ b).length = (u.length - 1 + (u.length - 1 + b.length)) + 1 from by
    simp [List.length_append]; omega]
  rw [strReplaceF_head u rep _ _ hu]
  congr 1
  exact strReplaceF_nomatch u rep b _ (by omega) hB

theorem mem_of_mem_firstDedup :
    ∀ (seen l : List (List Char)) (x : List Char),
      x ∈ firstDedup seen l → x ∈ l := by
  intro seen l
  induction l generalizing seen with
  | nil => intro x hx; simp [firstDedup] at hx
  | cons a t ih =>
    intro x hx
    by_cases ha : a ∈ seen
    · simp only [firstDedup, if_pos ha] at hx
      exact List.mem_cons_of_mem _ (ih seen x hx)
    · simp only [firstDedup, if_neg ha] at hx
      rcases List.mem_cons.mp hx with rfl | hx'
      · exact List.mem_cons_self _ _
      · exact List.mem_cons_of_mem _ (ih (a :: seen) x hx')

theorem foldl_resolveStep_unchanged (resolver : String → String) :
    ∀ (ds : List (List Char)) (t0 : List Char) (m : Bool) (ls : List String),
      (∀ u ∈ ds, resolver (String.mk u) = String.mk u) →
      ds.foldl (resolveStep resolver) (t0, m, ls) =
        (t0, m, ls ++ ds.map String.mk) := by
  intro ds
  induction ds with
  | nil => intro t0 m ls _; simp
  | cons u t ih =>
    intro t0 m ls h
    have hu : (resolver (String.mk u)).data = u :=
      congrArg String.data (h u (List.mem_cons_self _ _))
    have hstep : resolveStep resolver (t0, m, ls) u = (t0, m, ls ++ [String.mk u]) := by
      simp [resolveStep, applyResolved, hu]
    rw [List.foldl_cons, hstep,
      ih t0 m (ls ++ [String.mk u]) (fun v hv => h v (List.mem_cons_of_mem _ hv))]
    simp

/-! ## C7: one lookup per distinct URL; replacement of occurrences -/

/-- C7 (amended): for a text containing the same indirection URL at two
positions, the resolver performs exactly one resolution lookup for that
URL (the audit list of lookups is exactly `[u]`).  When neither
occurrence lies inside a Markdown link construct, both bare occurrences
are replaced with the identical replacement string
`[resolved](original)`.  When the first occurrence lies inside a
Markdown link construct, only the construct is rewritten and the bare
occurrence is left unchanged (this branch is what refutes the original
claim — see the counterexample). -/
theorem c7_one_lookup_and_replacement :
    (∀ (resolver : String → String) (a m b tok u : List Char) (R : String),
      u = vertexBase ++ tok →
      findAllUrls (a ++ (u ++ (m ++ (u ++ b)))) = [u, u] →
      resolver (String.mk u) = R →
      R.data ≠ u →
      mdSearch u (a ++ (u ++ (m ++ (u ++ b)))) = false →
      (∀ i, i < a.length →
        u.isPrefixOf ((a ++ (u ++ (m ++ (u ++ b)))).drop i) = false) →
      (∀ i, i < m.length → u.isPrefixOf ((m ++ (u ++ b)).drop i) = false) →
      (∀ i, i < b.length → u.isPrefixOf (b.drop i) = false) →
      resolve_investigator_urls resolver (String.mk (a ++ (u ++ (m ++ (u ++ b))))) =
        (some (String.mk
          (a ++ (mdRepl R.data u ++ (m ++ (mdRepl R.data u ++ b))))),
         [String.mk u])) ∧
    (∀ (resolver : String → String) (a lab m b tok u : List Char) (R : String),
      u = vertexBase ++ tok →
      findAllUrls
        (a ++ ('[' :: (lab ++ (']' :: '(' :: (u ++ (')' :: (m ++ (u ++ b)))))))) =
        [u, u] →
      resolver (String.mk u) = R →
      R.data ≠ u →
      (∀ ch ∈ lab, ch ≠ ']') →
      (∀ i, i < a.length →
        mdMatch u ((a ++ ('[' :: (lab ++
          (']' :: '(' :: (u ++ (')' :: (m ++ (u ++ b)))))))).drop i) = none) →
      (∀ i, i < (m ++ (u ++ b)).length →
        mdMatch u ((m ++ (u ++ b)).drop i) = none) →
      resolve_investigator_urls resolver
        (String.mk (a ++ ('[' :: (lab ++
          (']' :: '(' :: (u ++ (')' :: (m ++ (u ++ b))))))))) =
        (some (String.mk (a ++ (mdRepl R.data u ++ (m ++ (u ++ b))))),
         [String.mk u])) := by
  constructor
  · intro resolver a m b tok u R hu hfind hres hne hmd hA hM hB
    have hune : u ≠ [] := by
      have h0 : 0 < vertexBase.length := by decide
      have : 0 < u.length := by
        rw [hu, List.length_append]; omega
      exact List.length_pos.mp this
    have hd : firstDedup [] [u, u] = [u] := by simp [firstDedup]
    have happ : applyResolved resolver (a ++ (u ++ (m ++ (u ++ b)))) u =
        (strReplace u (mdRepl R.data u) (a ++ (u ++ (m ++ (u ++ b)))), true) := by
      simp only [applyResolved]
      rw [congrArg String.data hres, if_neg hne, if_neg (by simp [hmd])]
    simp only [resolve_investigator_urls]
    rw [hfind, hd]
    simp only [List.foldl_cons, List.foldl_nil, resolveStep, happ]
    rw [strReplace_two_bare u (mdRepl R.data u) a m b hune hA hM hB]
    simp
  · intro resolver a lab m b tok u R hu hfind hres hne hlab hA hC
    have hd : firstDedup [] [u, u] = [u] := by simp [firstDedup]
    have hsearch : mdSearch u
        (a ++ ('[' :: (lab ++ (']' :: '(' :: (u ++ (')' :: (m ++ (u ++ b)))))))) =
        true :=
      mdSearch_of_match u a _ (mdMatch_construct u lab (m ++ (u ++ b)) hlab)
    have happ : applyResolved resolver
        (a ++ ('[' :: (lab ++ (']' :: '(' :: (u ++ (')' :: (m ++ (u ++ b)))))))) u =
        (mdSub u (mdRepl R.data u)
          (a ++ ('[' :: (lab ++ (']' :: '(' :: (u ++ (')' :: (m ++ (u ++ b)))))))),
         true) := by
      simp only [applyResolved]
      rw [congrArg String.data hres, if_neg hne, if_pos hsearch]
    simp only [resolve_investigator_urls]
    rw [hfind, hd]
    simp only [List.foldl_cons, List.foldl_nil, resolveStep, happ]
    rw [mdSub_one_construct u (mdRepl R.data u) a lab (m ++ (u ++ b)) hlab hA hC]
    simp

/-! ## C8: markdown-link rewriting and the unchanged signal -/

/-- C8: when the only found indirection URL lies inside a Markdown link
construct `[label](url)` and resolution maps it to a different
destination `R`, the whole construct is replaced by `[R](url)` and all
surrounding text is returned byte-identical; and when resolution leaves
every found URL unchanged, the resolver signals "unchanged" by
returning `none` instead of a modified text. -/
theorem c8_markdown_rewrite_and_unchanged_signal :
    (∀ (resolver : String → String) (a lab b tok u : List Char) (R : String),
      u = vertexBase ++ tok →
      findAllUrls (a ++ ('[' :: (lab ++ (']' :: '(' :: (u ++ (')' :: b)))))) = [u] →
      resolver (String.mk u) = R →
      R.data ≠ u →
      (∀ ch ∈ lab, ch ≠ ']') →
      (∀ i, i < a.length →
        mdMatch u ((a ++ ('[' :: (lab ++
          (']' :: '(' :: (u ++ (')' :: b)))))).drop i) = none) →
      (∀ i, i < b.length → mdMatch u (b.drop i) = none) →
      resolve_investigator_urls resolver
        (String.mk (a ++ ('[' :: (lab ++ (']' :: '(' :: (u ++ (')' :: b))))))) =
        (some (String.mk (a ++ (mdRepl R.data u ++ b))), [String.mk u])) ∧
    (∀ (resolver : String → String) (text : String),
      (∀ u ∈ findAllUrls text.data, resolver (String.mk u) = String.mk u) →
      (resolve_investigator_urls resolver text).1 = none) := by
  constructor
  · intro resolver a lab b tok u R hu hfind hres hne hlab hA hB
    have hd : firstDedup [] [u] = [u] := by simp [firstDedup]
    have hsearch : mdSearch u
        (a ++ ('[' :: (lab ++ (']' :: '(' :: (u ++ (')' :: b)))))) = true :=
      mdSearch_of_match u a _ (mdMatch_construct u lab b hlab)
    have happ : applyResolved resolver
        (a ++ ('[' :: (lab ++ (']' :: '(' :: (u ++ (')' :: b)))))) u =
        (mdSub u (mdRepl R.data u)
          (a ++ ('[' :: (lab ++ (']' :: '(' :: (u ++ (')' :: b)))))), true) := by
      simp only [applyResolved]
      rw [congrArg String.data hres, if_neg hne, if_pos hsearch]
    simp only [resolve_investigator_urls]
    rw [hfind, hd]
    simp only [List.foldl_cons, List.foldl_nil, resolveStep, happ]
    rw [mdSub_one_construct u (mdRepl R.data u) a lab b hlab hA hB]
    simp
  · intro resolver text h
    have hmem : ∀ u ∈ firstDedup [] (findAllUrls text.data),
        resolver (String.mk u) = String.mk u :=
      fun u hu => h u (mem_of_mem_firstDedup [] _ u hu)
    simp only [resolve_investigator_urls]
    rw [foldl_resolveStep_unchanged resolver _ _ _ _ hmem]
    rfl

/-- C7 counterexample: the same URL appears once inside a Markdown link
and once bare; only one lookup happens, but the markdown branch
(`markdown_pattern.sub`) rewrites only the link construct, leaving the
bare occurrence unreplaced — so not all occurrences receive the
replacement string, refuting the claim as stated. -/
theorem c7_counterexample :
    resolve_investigator_urls
      (fun s =>
        if s = "https://vertexaisearch.cloud.google.com/grounding-api-redirect/abc"
        then "https://real.example/page" else s)
      "[x](https://vertexaisearch.cloud.google.com/grounding-api-redirect/abc) https://vertexaisearch.cloud.google.com/grounding-api-redirect/abc" =
      (some "[https://real.example/page](https://vertexaisearch.cloud.google.com/grounding-api-redirect/abc) https://vertexaisearch.cloud.google.com/grounding-api-redirect/abc",
       ["https://vertexaisearch.cloud.google.com/grounding-api-redirect/abc"]) ∧
    ("[https://real.example/page](https://vertexaisearch.cloud.google.com/grounding-api-redirect/abc) https://vertexaisearch.cloud.google.com/grounding-api-redirect/abc" : String) ≠
      "[https://real.example/page](https://vertexaisearch.cloud.google.com/grounding-api-redirect/abc) [https://real.example/page](https://vertexaisearch.cloud.google.com/grounding-api-redirect/abc)" := by
  exact ⟨by decide, by decide⟩

/-- Witness for C7 at concrete texts: two bare occurrences are both
replaced identically after a single lookup; with a markdown-wrapped
first occurrence only the construct is rewritten. -/
theorem c7_witness :
    resolve_investigator_urls
      (fun s =>
        if s = "https://vertexaisearch.cloud.google.com/grounding-api-redirect/abc"
        then "https://real.example/page" else s)
      (String.mk ("see ".data ++
        ("https://vertexaisearch.cloud.google.com/grounding-api-redirect/abc".data ++
          (" and ".data ++
            ("https://vertexaisearch.cloud.google.com/grounding-api-redirect/abc".data ++
              " end".data))))) =
      (some "see [https://real.example/page](https://vertexaisearch.cloud.google.com/grounding-api-redirect/abc) and [https://real.example/page](https://vertexaisearch.cloud.google.com/grounding-api-redirect/abc) end",
       ["https://vertexaisearch.cloud.google.com/grounding-api-redirect/abc"]) ∧
    resolve_investigator_urls
      (fun s =>
        if s = "https://vertexaisearch.cloud.google.com/grounding-api-redirect/abc"
        then "https://real.example/page" else s)
      (String.mk ("see ".data ++
        ('[' :: ("x".data ++
          (']' :: '(' ::
            ("https://vertexaisearch.cloud.google.com/grounding-api-redirect/abc".data ++
              (')' :: (" plus ".data ++
                ("https://vertexaisearch.cloud.google.com/grounding-api-redirect/abc".data ++
                  " end".data))))))))) =
      (some "see [https://real.example/page](https://vertexaisearch.cloud.google.com/grounding-api-redirect/abc) plus https://vertexaisearch.cloud.google.com/grounding-api-redirect/abc end",
       ["https://vertexaisearch.cloud.google.com/grounding-api-redirect/abc"]) := by
  constructor
  · exact (c7_one_lookup_and_replacement.1
      (fun s =>
        if s = "https://vertexaisearch.cloud.google.com/grounding-api-redirect/abc"
        then "https://real.example/page" else s)
      "see ".data " and ".data " end".data "abc".data
      "https://vertexaisearch.cloud.google.com/grounding-api-redirect/abc".data
      "https://real.example/page"
      (by decide) (by decide) (by decide) (by decide) (by decide) (by decide)
      (by decide) (by decide)).trans (by decide)
  · exact (c7_one_lookup_and_replacement.2
      (fun s =>
        if s = "https://vertexaisearch.cloud.google.com/grounding-api-redirect/abc"
        then "https://real.example/page" else s)
      "see ".data "x".data " plus ".data " end".data "abc".data
      "https://vertexaisearch.cloud.google.com/grounding-api-redirect/abc".data
      "https://real.example/page"
      (by decide) (by decide) (by decide) (by decide) (by decide) (by decide)
      (by decide)).trans (by decide)

/-- Witness for C8: a concrete markdown-wrapped URL is rewritten to
`[resolved](original)` with the surrounding text intact, and a
resolution that changes nothing yields the unchanged signal `none`. -/
theorem c8_witness :
    resolve_investigator_urls
      (fun s =>
        if s = "https://vertexaisearch.cloud.google.com/grounding-api-redirect/abc"
        then "https://real.example/page" else s)
      (String.mk ("see ".data ++
        ('[' :: ("Example".data ++
          (']' :: '(' ::
            ("https://vertexaisearch.cloud.google.com/grounding-api-redirect/abc".data ++
              (')' :: " end.".data))))))) =
      (some "see [https://real.example/page](https://vertexaisearch.cloud.google.com/grounding-api-redirect/abc) end.",
       ["https://vertexaisearch.cloud.google.com/grounding-api-redirect/abc"]) ∧
    (resolve_investigator_urls (fun s => s)
      "see https://vertexaisearch.cloud.google.com/grounding-api-redirect/abc end").1 =
      none := by
  constructor
  · exact (c8_markdown_rewrite_and_unchanged_signal.1
      (fun s =>
        if s = "https://vertexaisearch.cloud.google.com/grounding-api-redirect/abc"
        then "https://real.example/page" else s)
      "see ".data "Example".data " end.".data "abc".data
      "https://vertexaisearch.cloud.google.com/grounding-api-redirect/abc".data
      "https://real.example/page"
      (by decide) (by decide) (by decide) (by decide) (by decide) (by decide)
      (by decide)).trans (by decide)
  · exact c8_markdown_rewrite_and_unchanged_signal.2 (fun s => s)
      "see https://vertexaisearch.cloud.google.com/grounding-api-redirect/abc end"
      (fun u _ => rfl)

end BetaAI
